import Mathlib

/-!
Shallow embedding of the climate-risk engine of this repository:
`src/config.py` (threshold provider), `src/risk_analysis.py`
(daily aggregator + risk evaluator) and `src/advisories.py`
(advisory composer).

Modelling conventions:
* Python floats are modelled as `ℚ`; all threshold values and weather
  readings in the code are exact decimals, so no rounding is lost.
* A Python dict of thresholds is modelled as `String → Option ℚ`;
  `dict.get(k, d)` becomes `tget`, `dict[k] = v` becomes `tset`.
* The `'%Y-%m-%d'` day string obtained from `datetime.fromtimestamp(ts)`
  is modelled as the day index `ts / 86400`.  The rendered strings are
  fixed-width and the map from day index to string is injective, so
  comparison of day strings (including the `"ending <date>"` substring
  test, which compares fixed-width dates inside a single-occurrence
  pattern) is equality of day indices.
* Alert strings are modelled as structured `Alert` values carrying
  exactly the data interpolated into the corresponding f-string.
* Malformed JSON input is modelled by explicit constructors
  (`nullDoc`, `notDict`, missing/ill-typed `'list'` key, non-dict list
  entries, missing `'dt'`), matching the validation branches in
  `assess_climate_risks_enhanced`.
-/

namespace GSC

/-- A Python threshold dictionary: finitely many string keys to numbers. -/
def Thresholds : Type := String → Option ℚ

/-- `thresholds.get(k, d)`. -/
def tget (t : Thresholds) (k : String) (d : ℚ) : ℚ := (t k).getD d

/-- `thresholds[k] = v` on a copy. -/
def tset (t : Thresholds) (k : String) (v : ℚ) : Thresholds :=
  fun k' => if k' = k then some v else t k'

/-- `DEFAULT_THRESHOLDS` from `src/config.py`. -/
def DEFAULT_THRESHOLDS : Thresholds := fun k =>
  if k = "drought_risk_days" then some 7
  else if k = "drought_risk_mm" then some 2
  else if k = "flood_risk_mm_per_day" then some 50
  else if k = "heavy_rain_mm_per_3h" then some 15
  else if k = "heatwave_temp_c" then some 38
  else if k = "heatwave_days" then some 3
  else if k = "frost_risk_temp_c" then some 2
  else if k = "high_wind_speed_ms" then some 15
  else if k = "high_humidity_perc" then some 85
  else if k = "high_humidity_duration_h" then some 12
  else none

/-- Rule 1 of `get_adjusted_thresholds`:
`if stage in ["Flowering", "Fruiting/Maturity"]`. -/
def stageSensitivityRule (adjusted : Thresholds) (stage : String) : Thresholds :=
  if stage = "Flowering" ∨ stage = "Fruiting/Maturity" then
    let a1 := tset adjusted "heatwave_temp_c" (max 32 (tget adjusted "heatwave_temp_c" 38 - 3))
    tset a1 "drought_risk_days" (max 3 (tget a1 "drought_risk_days" 7 - 2))
  else adjusted

/-- Rule 2: `if crop == "Rice" and stage != "Germination/Seedling"`. -/
def riceDroughtRule (adjusted : Thresholds) (crop stage : String) : Thresholds :=
  if crop = "Rice" ∧ stage ≠ "Germination/Seedling" then
    tset adjusted "drought_risk_days" (min 10 (tget adjusted "drought_risk_days" 7 + 3))
  else adjusted

/-- Rule 3: `if crop == "Vegetables" and stage == "Germination/Seedling"`. -/
def vegFrostRule (adjusted : Thresholds) (crop stage : String) : Thresholds :=
  if crop = "Vegetables" ∧ stage = "Germination/Seedling" then
    tset adjusted "frost_risk_temp_c" (max 3 (tget adjusted "frost_risk_temp_c" 2 + 1))
  else adjusted

/-- Rule 4: `if crop == "Maize" and stage in ["Fruiting/Maturity"]`. -/
def maizeWindRule (adjusted : Thresholds) (crop stage : String) : Thresholds :=
  if crop = "Maize" ∧ stage = "Fruiting/Maturity" then
    tset adjusted "high_wind_speed_ms" (max 10 (tget adjusted "high_wind_speed_ms" 15 - 3))
  else adjusted

/-- `get_adjusted_thresholds` from `src/config.py`: start from a copy of
the base dict and apply the four rules in program order, each reading the
value left by the previous one. -/
def get_adjusted_thresholds (base : Thresholds) (crop stage : String) : Thresholds :=
  maizeWindRule (vegFrostRule (riceDroughtRule (stageSensitivityRule base stage)
    crop stage) crop stage) crop stage

/-- The `'main'` sub-dict of a forecast entry: only the fields the code reads. -/
structure EntryMain where
  temp_max : Option ℚ
  temp_min : Option ℚ
  humidity : Option ℚ
  deriving DecidableEq, Repr

/-- A well-typed forecast list entry (a dict, possibly missing fields). -/
structure FcEntry where
  dt : Option ℕ
  main : EntryMain
  wind_speed : Option ℚ
  rain_3h : Option ℚ
  deriving DecidableEq, Repr

/-- An element of `forecast_data['list']`: either not a dict (skipped by
the aggregation loop) or a dict entry. -/
inductive RawEntry where
  | notDict
  | entry (e : FcEntry)
  deriving DecidableEq, Repr

/-- The value stored under the `'list'` key: a list, or something else. -/
inductive SampleList where
  | notList
  | list (es : List RawEntry)
  deriving DecidableEq, Repr

/-- The `forecast_data` argument: `None`, a non-dict, or a dict whose
`'list'` key is absent (`none`) or present. -/
inductive ForecastDoc where
  | nullDoc
  | notDict
  | dict (l : Option SampleList)
  deriving DecidableEq, Repr

/-- Day index of a timestamp, modelling
`datetime.fromtimestamp(ts).strftime('%Y-%m-%d')`. -/
def tsDay (ts : ℕ) : ℕ := ts / 86400

/-- One value of the `daily_summary` dict. -/
structure DaySummary where
  max_temp : ℚ
  min_temp : ℚ
  total_rain : ℚ
  max_wind_speed : ℚ
  humidity_readings : List (Option ℚ)
  rain_3h_intervals : List ℚ
  count : ℕ
  deriving DecidableEq, Repr

/-- The fresh per-day summary:
`{'max_temp': -100, 'min_temp': 200, 'total_rain': 0, 'max_wind_speed': 0,
  'humidity_readings': [], 'rain_3h_intervals': [], 'count': 0}`. -/
def initSummary : DaySummary :=
  { max_temp := -100, min_temp := 200, total_rain := 0, max_wind_speed := 0
    humidity_readings := [], rain_3h_intervals := [], count := 0 }

/-- The per-entry update of one day's summary (lines 82–89 of
`risk_analysis.py`). -/
def updateSummary (s : DaySummary) (e : FcEntry) : DaySummary :=
  let rain3h := e.rain_3h.getD 0
  { max_temp := max s.max_temp (e.main.temp_max.getD s.max_temp)
    min_temp := min s.min_temp (e.main.temp_min.getD s.min_temp)
    total_rain := s.total_rain + rain3h
    max_wind_speed := max s.max_wind_speed (e.wind_speed.getD 0)
    humidity_readings := s.humidity_readings ++ [e.main.humidity]
    rain_3h_intervals := s.rain_3h_intervals ++ (if 0 < rain3h then [rain3h] else [])
    count := s.count + 1 }

/-- `daily_summary.get(d)`: first binding of a key in the association list
modelling the Python dict. -/
def lookupDay : ℕ → List (ℕ × DaySummary) → Option DaySummary
  | _, [] => none
  | d, (d', s) :: rest => if d = d' then some s else lookupDay d rest

/-- Store a day's summary in the association list modelling `daily_summary`
(update in place if the key exists, else append, as a Python dict does). -/
def setDay : List (ℕ × DaySummary) → ℕ → DaySummary → List (ℕ × DaySummary)
  | [], d, s => [(d, s)]
  | (d', s') :: rest, d, s =>
    if d' = d then (d, s) :: rest else (d', s') :: setDay rest d s

/-- Fold one raw entry into `daily_summary`, skipping non-dict entries and
entries with no `'dt'` (the `continue` branches of the aggregation loop). -/
def aggEntry (m : List (ℕ × DaySummary)) (r : RawEntry) : List (ℕ × DaySummary) :=
  match r with
  | .notDict => m
  | .entry e =>
    match e.dt with
    | none => m
    | some ts =>
      let d := tsDay ts
      setDay m d (updateSummary ((lookupDay d m).getD initSummary) e)

/-- The whole aggregation phase: `daily_summary` after the first loop. -/
def aggregate (es : List RawEntry) : List (ℕ × DaySummary) :=
  es.foldl aggEntry []

/-- A detail/alert string, as structured data: each constructor carries
exactly the values interpolated into the corresponding f-string. -/
inductive Alert where
  | frost (day : ℕ) (minTemp thr : ℚ)
  | flood (day : ℕ) (totalRain thr : ℚ)
  | heavyRain (day : ℕ) (maxRain3h thr : ℚ)
  | highWind (day : ℕ) (maxWind thr : ℚ)
  | highHumidity (day : ℕ) (hours : ℕ) (avgHigh thrPerc thrDur : ℚ)
  | drought (streak : ℕ) (thrMM : ℚ) (startDay : ℤ)
  | heatwave (streak : ℕ) (thrTemp : ℚ) (ending : ℕ)
  deriving DecidableEq, Repr

/-- The substring test `f"ending {day_str}" in d`: among the generated
detail strings, only a heatwave detail contains `"ending "`, followed by a
fixed-width date, so the test holds iff the detail is a heatwave detail
with that ending day. -/
def Alert.mentionsEnding : Alert → ℕ → Bool
  | .heatwave _ _ e, d => e == d
  | _, _ => false

/-- One category of the `risks` dict. -/
structure RiskCat where
  warning : Bool
  details : List Alert
  deriving DecidableEq, Repr

/-- `{"warning": False, "details": []}`. -/
def initCat : RiskCat := { warning := false, details := [] }

/-- The `risks` dict. -/
structure Risks where
  drought : RiskCat
  flood_heavy_rain : RiskCat
  heatwave : RiskCat
  frost : RiskCat
  high_wind : RiskCat
  prolonged_high_humidity : RiskCat
  overall_alerts : List Alert
  deriving DecidableEq, Repr

/-- The initial all-false risks dict (lines 16–24). -/
def initRisks : Risks :=
  { drought := initCat, flood_heavy_rain := initCat, heatwave := initCat
    frost := initCat, high_wind := initCat, prolonged_high_humidity := initCat
    overall_alerts := [] }

/-- Frost check (lines 117–123), threading `(risks, day_alerts)`. -/
def frostCheck (th : Thresholds) (day : ℕ) (s : DaySummary)
    (p : Risks × List Alert) : Risks × List Alert :=
  let ft := tget th "frost_risk_temp_c" 2
  if s.min_temp ≤ ft then
    let a := Alert.frost day s.min_temp ft
    ({ p.1 with frost := ⟨true, p.1.frost.details ++ [a]⟩ }, p.2 ++ [a])
  else p

/-- `max(rain_intervals) if rain_intervals else 0`. -/
def maxRainInterval : List ℚ → ℚ
  | [] => 0
  | h :: t => t.foldl max h

/-- Flood / heavy-rain check (lines 126–142): the burst branch runs only
when the daily-total branch did not. -/
def floodCheck (th : Thresholds) (day : ℕ) (s : DaySummary)
    (p : Risks × List Alert) : Risks × List Alert :=
  let ftd := tget th "flood_risk_mm_per_day" 50
  let ft3 := tget th "heavy_rain_mm_per_3h" 15
  let m3 := maxRainInterval s.rain_3h_intervals
  if ftd ≤ s.total_rain then
    let a := Alert.flood day s.total_rain ftd
    ({ p.1 with flood_heavy_rain := ⟨true, p.1.flood_heavy_rain.details ++ [a]⟩ }, p.2 ++ [a])
  else if ft3 ≤ m3 then
    let a := Alert.heavyRain day m3 ft3
    ({ p.1 with flood_heavy_rain := ⟨true, p.1.flood_heavy_rain.details ++ [a]⟩ }, p.2 ++ [a])
  else p

/-- High-wind check (lines 144–151). -/
def windCheck (th : Thresholds) (day : ℕ) (s : DaySummary)
    (p : Risks × List Alert) : Risks × List Alert :=
  let wt := tget th "high_wind_speed_ms" 15
  if wt ≤ s.max_wind_speed then
    let a := Alert.highWind day s.max_wind_speed wt
    ({ p.1 with high_wind := ⟨true, p.1.high_wind.details ++ [a]⟩ }, p.2 ++ [a])
  else p

/-- Prolonged-high-humidity check (lines 153–163): drop `None` readings,
approximate hours as (count of readings ≥ threshold) · 3, and guard the
average against an empty set of qualifying readings. -/
def humidityCheck (th : Thresholds) (day : ℕ) (s : DaySummary)
    (p : Risks × List Alert) : Risks × List Alert :=
  let ht := tget th "high_humidity_perc" 85
  let hd := tget th "high_humidity_duration_h" 12
  let readings := s.humidity_readings.filterMap id
  let highs := readings.filter (fun h => decide (ht ≤ h))
  let hours : ℕ := highs.length * 3
  if hd ≤ (hours : ℚ) ∧ readings ≠ [] then
    let avg := if highs = [] then ht else highs.sum / (highs.length : ℚ)
    let a := Alert.highHumidity day hours avg ht hd
    ({ p.1 with prolonged_high_humidity :=
        ⟨true, p.1.prolonged_high_humidity.details ++ [a]⟩ }, p.2 ++ [a])
  else p

/-- Drought trigger (lines 177–182), taking the already-updated dry-day
counter: fires only while the drought flag is still false. -/
def droughtCheck (th : Thresholds) (day : ℕ) (dry : ℕ)
    (p : Risks × List Alert) : Risks × List Alert :=
  let dm := tget th "drought_risk_mm" 2
  let dd := tget th "drought_risk_days" 7
  if dd ≤ (dry : ℚ) ∧ p.1.drought.warning = false then
    let a := Alert.drought dry dm ((day : ℤ) - ((dry : ℤ) - 1))
    ({ p.1 with drought := ⟨true, p.1.drought.details ++ [a]⟩ }, p.2 ++ [a])
  else p

/-- Heatwave trigger (lines 189–196), taking the already-updated hot-day
counter: de-duplicated by the `"ending <date>"` substring test. -/
def heatwaveCheck (th : Thresholds) (day : ℕ) (hot : ℕ)
    (p : Risks × List Alert) : Risks × List Alert :=
  let hdays := tget th "heatwave_days" 3
  let htTemp := tget th "heatwave_temp_c" 38
  if hdays ≤ (hot : ℚ) then
    if p.1.heatwave.details.any (fun a => a.mentionsEnding day) then p
    else
      let a := Alert.heatwave hot htTemp day
      ({ p.1 with heatwave := ⟨true, p.1.heatwave.details ++ [a]⟩ }, p.2 ++ [a])
  else p

/-- The body of the risk loop for one processed day (lines 112–199):
run the four per-day checks, update the two streak counters, run the two
streak checks, then extend `overall_alerts` with the day's alerts. -/
def processDay (th : Thresholds) (day : ℕ) (s : DaySummary)
    (dry hot : ℕ) (r : Risks) : Risks × ℕ × ℕ :=
  let p1 := frostCheck th day s (r, [])
  let p2 := floodCheck th day s p1
  let p3 := windCheck th day s p2
  let p4 := humidityCheck th day s p3
  let dm := tget th "drought_risk_mm" 2
  let dry' := if s.total_rain ≤ dm then dry + 1 else 0
  let p5 := droughtCheck th day dry' p4
  let htTemp := tget th "heatwave_temp_c" 38
  let hot' := if htTemp ≤ s.max_temp then hot + 1 else 0
  let p6 := heatwaveCheck th day hot' p5
  let r' := if p6.2.isEmpty then p6.1
            else { p6.1 with overall_alerts := p6.1.overall_alerts ++ p6.2 }
  (r', dry', hot')

/-- Processing a plain list of days with no date filter and no cap,
returning the final `(risks, dry counter, hot counter)`. -/
def foldDays (th : Thresholds) (m : List (ℕ × DaySummary)) :
    List ℕ → ℕ → ℕ → Risks → Risks × ℕ × ℕ
  | [], dry, hot, r => (r, dry, hot)
  | d :: rest, dry, hot, r =>
    let s := (lookupDay d m).getD initSummary
    let q := processDay th d s dry hot r
    foldDays th m rest q.2.1 q.2.2 q.1

/-- The risk loop of lines 107–203: skip days before `today` (without
counting them), process a day, and break once 5 days have been processed. -/
def riskLoop (th : Thresholds) (today : ℕ) (m : List (ℕ × DaySummary)) :
    List ℕ → ℕ → ℕ → ℕ → Risks → Risks
  | [], _, _, _, r => r
  | d :: rest, dry, hot, processed, r =>
    if d < today then riskLoop th today m rest dry hot processed r
    else
      let s := (lookupDay d m).getD initSummary
      let q := processDay th d s dry hot r
      if 5 ≤ processed + 1 then q.1
      else riskLoop th today m rest q.2.1 q.2.2 (processed + 1) q.1

/-- `sorted(daily_summary.keys())`. -/
def sortedDayKeys (m : List (ℕ × DaySummary)) : List ℕ :=
  List.insertionSort (· ≤ ·) (m.map Prod.fst)

/-- Risk assessment of a well-formed, non-empty forecast list. -/
def assessRisksFrom (es : List RawEntry) (th : Thresholds) (today : ℕ) : Risks :=
  let m := aggregate es
  riskLoop th today m (sortedDayKeys m) 0 0 0 initRisks

/-- `assess_climate_risks_enhanced` from `src/risk_analysis.py`:
validation branches return the initial all-false dict; otherwise aggregate
and run the risk loop.  `today` is the caller-clock reference date
(`date.today()`). -/
def assess_climate_risks_enhanced (fd : ForecastDoc) (th : Thresholds)
    (today : ℕ) : Risks :=
  match fd with
  | .nullDoc => initRisks
  | .notDict => initRisks
  | .dict none => initRisks
  | .dict (some .notList) => initRisks
  | .dict (some (.list [])) => initRisks
  | .dict (some (.list (e :: es))) => assessRisksFrom (e :: es) th today

/-- The days the risk loop actually processes: sorted keys, past days
dropped, capped at 5. -/
def processedDays (es : List RawEntry) (today : ℕ) : List ℕ :=
  ((sortedDayKeys (aggregate es)).filter (fun d => decide (¬ d < today))).take 5

/-- The `crop_info` dict of `generate_advisories_enhanced`. -/
structure CropInfo where
  ctype : Option String
  stage : Option String
  deriving DecidableEq, Repr

/-- One appended advisory line, as structured data. -/
inductive AdvLine where
  | missingRiskData
  | noSignificantRisk
  | header
  | droughtWarn
  | droughtAdvice
  | droughtCritical (stage : Option String)
  | droughtAdjust
  | floodWarn
  | heatwaveWarn
  | frostWarn
  | windWarn
  | humidityWarn
  | detailsHeader
  | detail (a : Alert)
  | moreMarker
  | sepLine
  | disclaimer
  deriving DecidableEq, Repr

/-- `any(v.get('warning', False) for k, v in risks.items() if k != 'overall_alerts')`. -/
def hasAnyWarning (r : Risks) : Bool :=
  r.drought.warning || r.flood_heavy_rain.warning || r.heatwave.warning ||
  r.frost.warning || r.high_wind.warning || r.prolonged_high_humidity.warning

/-- The detail-summary loop of lines 68–73 of `advisories.py`: emit the
alerts at indices < 7, and at index 7 emit the truncation marker and break. -/
def detailLines (alerts : List Alert) : List AdvLine :=
  (alerts.take 7).map AdvLine.detail ++
    (if 7 < alerts.length then [AdvLine.moreMarker] else [])

/-- `generate_advisories_enhanced` from `src/advisories.py`.  `none`
models a falsy `risks` argument. -/
def generate_advisories_enhanced (risks : Option Risks) (crop : CropInfo) :
    List AdvLine :=
  match risks with
  | none => [AdvLine.missingRiskData]
  | some r =>
    if hasAnyWarning r = false then [AdvLine.noSignificantRisk]
    else
      [AdvLine.header]
      ++ (if r.drought.warning then
            [AdvLine.droughtWarn, AdvLine.droughtAdvice] ++
            (if crop.stage = some "Flowering" ∨ crop.stage = some "Fruiting/Maturity"
             then [AdvLine.droughtCritical crop.stage] else [AdvLine.droughtAdjust])
          else [])
      ++ (if r.flood_heavy_rain.warning then [AdvLine.floodWarn] else [])
      ++ (if r.heatwave.warning then [AdvLine.heatwaveWarn] else [])
      ++ (if r.frost.warning then [AdvLine.frostWarn] else [])
      ++ (if r.high_wind.warning then [AdvLine.windWarn] else [])
      ++ (if r.prolonged_high_humidity.warning then [AdvLine.humidityWarn] else [])
      ++ (if r.overall_alerts.isEmpty then []
          else AdvLine.detailsHeader :: detailLines r.overall_alerts)
      ++ [AdvLine.sepLine, AdvLine.disclaimer]

/-- The summary the risk loop reads for a day (`daily_summary[day_str]`). -/
def summaryFor (m : List (ℕ × DaySummary)) (d : ℕ) : DaySummary :=
  (lookupDay d m).getD initSummary

/-- A day that keeps the dry-day streak going:
`summary.get('total_rain', 100) <= drought_mm_thresh`. -/
def isDry (th : Thresholds) (m : List (ℕ × DaySummary)) (d : ℕ) : Prop :=
  (summaryFor m d).total_rain ≤ tget th "drought_risk_mm" 2

/-- A day that keeps the hot-day streak going:
`summary.get('max_temp', 0) >= heat_temp_thresh`. -/
def isHot (th : Thresholds) (m : List (ℕ × DaySummary)) (d : ℕ) : Prop :=
  tget th "heatwave_temp_c" 38 ≤ (summaryFor m d).max_temp

/-- All six categories' detail lists, concatenated. -/
def detailsUnion (r : Risks) : List Alert :=
  r.drought.details ++ r.flood_heavy_rain.details ++ r.heatwave.details ++
  r.frost.details ++ r.high_wind.details ++ r.prolonged_high_humidity.details

/-- Every category's flag is up whenever its details list is non-empty. -/
def catsOk (r : Risks) : Prop :=
  (r.drought.details ≠ [] → r.drought.warning = true) ∧
  (r.flood_heavy_rain.details ≠ [] → r.flood_heavy_rain.warning = true) ∧
  (r.heatwave.details ≠ [] → r.heatwave.warning = true) ∧
  (r.frost.details ≠ [] → r.frost.warning = true) ∧
  (r.high_wind.details ≠ [] → r.high_wind.warning = true) ∧
  (r.prolonged_high_humidity.details ≠ [] → r.prolonged_high_humidity.warning = true)

/-- The report invariant of C10: flags match details, and every overall
alert occurs in some category's details. -/
def reportOk (r : Risks) : Prop :=
  catsOk r ∧ ∀ a ∈ r.overall_alerts, a ∈ detailsUnion r

/-- The invariant threaded through one day's checks: the report is sound
and every alert collected in `day_alerts` already sits in some details
list. -/
def pairOk (p : Risks × List Alert) : Prop :=
  reportOk p.1 ∧ ∀ a ∈ p.2, a ∈ detailsUnion p.1

/-- How much rain one raw entry contributes to day `d`
(`rain.get('3h', 0)` for a well-formed entry of that day, else nothing). -/
def contribRain (d : ℕ) : RawEntry → ℚ
  | .notDict => 0
  | .entry e =>
    match e.dt with
    | none => 0
    | some ts => if tsDay ts = d then e.rain_3h.getD 0 else 0

/-- Total rain contributed to day `d` by a sample list. -/
def dayRainSum (es : List RawEntry) (d : ℕ) : ℚ :=
  (es.map (contribRain d)).sum

/-- `v` is a `temp_max` reading contributed to day `d` by some sample. -/
def contributesMax (es : List RawEntry) (d : ℕ) (v : ℚ) : Prop :=
  ∃ e ts, RawEntry.entry e ∈ es ∧ e.dt = some ts ∧ tsDay ts = d ∧
    e.main.temp_max = some v

/-- `v` is a `temp_min` reading contributed to day `d` by some sample. -/
def contributesMin (es : List RawEntry) (d : ℕ) (v : ℚ) : Prop :=
  ∃ e ts, RawEntry.entry e ∈ es ∧ e.dt = some ts ∧ tsDay ts = d ∧
    e.main.temp_min = some v

/-- Is an advisory line one of the per-alert detail lines? -/
def isDetailLine : AdvLine → Bool
  | .detail _ => true
  | _ => false

/-- Is an advisory line the `"... (and potentially more)"` marker? -/
def isMoreMarker : AdvLine → Bool
  | .moreMarker => true
  | _ => false

/-! ### Which categories each check touches -/

theorem frostCheck_drought (th : Thresholds) (d : ℕ) (s : DaySummary)
    (p : Risks × List Alert) : (frostCheck th d s p).1.drought = p.1.drought := by
  simp only [frostCheck]; split <;> rfl

theorem frostCheck_heatwave (th : Thresholds) (d : ℕ) (s : DaySummary)
    (p : Risks × List Alert) : (frostCheck th d s p).1.heatwave = p.1.heatwave := by
  simp only [frostCheck]; split <;> rfl

theorem floodCheck_drought (th : Thresholds) (d : ℕ) (s : DaySummary)
    (p : Risks × List Alert) : (floodCheck th d s p).1.drought = p.1.drought := by
  simp only [floodCheck]; split <;> [rfl; (split <;> rfl)]

theorem floodCheck_heatwave (th : Thresholds) (d : ℕ) (s : DaySummary)
    (p : Risks × List Alert) : (floodCheck th d s p).1.heatwave = p.1.heatwave := by
  simp only [floodCheck]; split <;> [rfl; (split <;> rfl)]

theorem windCheck_drought (th : Thresholds) (d : ℕ) (s : DaySummary)
    (p : Risks × List Alert) : (windCheck th d s p).1.drought = p.1.drought := by
  simp only [windCheck]; split <;> rfl

theorem windCheck_heatwave (th : Thresholds) (d : ℕ) (s : DaySummary)
    (p : Risks × List Alert) : (windCheck th d s p).1.heatwave = p.1.heatwave := by
  simp only [windCheck]; split <;> rfl

theorem humidityCheck_drought (th : Thresholds) (d : ℕ) (s : DaySummary)
    (p : Risks × List Alert) : (humidityCheck th d s p).1.drought = p.1.drought := by
  simp only [humidityCheck]; split <;> rfl

theorem humidityCheck_heatwave (th : Thresholds) (d : ℕ) (s : DaySummary)
    (p : Risks × List Alert) : (humidityCheck th d s p).1.heatwave = p.1.heatwave := by
  simp only [humidityCheck]; split <;> rfl

theorem droughtCheck_heatwave (th : Thresholds) (d : ℕ) (n : ℕ)
    (p : Risks × List Alert) : (droughtCheck th d n p).1.heatwave = p.1.heatwave := by
  simp only [droughtCheck]; split <;> rfl

theorem heatwaveCheck_drought (th : Thresholds) (d : ℕ) (n : ℕ)
    (p : Risks × List Alert) : (heatwaveCheck th d n p).1.drought = p.1.drought := by
  simp only [heatwaveCheck]; split <;> [(split <;> rfl); rfl]

/-- Once the drought flag is up, the drought check is a no-op. -/
theorem droughtCheck_frozen (th : Thresholds) (d : ℕ) (n : ℕ)
    (p : Risks × List Alert) (h : p.1.drought.warning = true) :
    droughtCheck th d n p = p := by
  simp only [droughtCheck]
  rw [if_neg]
  rintro ⟨-, hw⟩
  rw [h] at hw
  exact Bool.noConfusion hw

/-- When the streak has reached the threshold and the flag is still down,
the drought check fires. -/
theorem droughtCheck_fires (th : Thresholds) (d : ℕ) (n : ℕ)
    (p : Risks × List Alert)
    (hn : tget th "drought_risk_days" 7 ≤ (n : ℚ))
    (hw : p.1.drought.warning = false) :
    droughtCheck th d n p =
      ({ p.1 with drought := ⟨true, p.1.drought.details ++
          [Alert.drought n (tget th "drought_risk_mm" 2) ((d : ℤ) - ((n : ℤ) - 1))]⟩ },
       p.2 ++ [Alert.drought n (tget th "drought_risk_mm" 2) ((d : ℤ) - ((n : ℤ) - 1))]) := by
  simp only [droughtCheck]
  rw [if_pos ⟨hn, hw⟩]

/-- Below the streak threshold, the heatwave check is a no-op. -/
theorem heatwaveCheck_below (th : Thresholds) (d : ℕ) (n : ℕ)
    (p : Risks × List Alert)
    (hn : ¬ tget th "heatwave_days" 3 ≤ (n : ℚ)) :
    heatwaveCheck th d n p = p := by
  simp only [heatwaveCheck]
  rw [if_neg hn]

/-- With the threshold reached but the ending date already recorded,
the heatwave check is a no-op. -/
theorem heatwaveCheck_already (th : Thresholds) (d : ℕ) (n : ℕ)
    (p : Risks × List Alert)
    (hn : tget th "heatwave_days" 3 ≤ (n : ℚ))
    (ha : p.1.heatwave.details.any (fun a => a.mentionsEnding d) = true) :
    heatwaveCheck th d n p = p := by
  simp only [heatwaveCheck]
  rw [if_pos hn, if_pos ha]

/-- With the threshold reached and a fresh ending date, the heatwave
check fires. -/
theorem heatwaveCheck_fires (th : Thresholds) (d : ℕ) (n : ℕ)
    (p : Risks × List Alert)
    (hn : tget th "heatwave_days" 3 ≤ (n : ℚ))
    (ha : p.1.heatwave.details.any (fun a => a.mentionsEnding d) = false) :
    heatwaveCheck th d n p =
      ({ p.1 with heatwave := ⟨true, p.1.heatwave.details ++
          [Alert.heatwave n (tget th "heatwave_temp_c" 38) d]⟩ },
       p.2 ++ [Alert.heatwave n (tget th "heatwave_temp_c" 38) d]) := by
  simp only [heatwaveCheck]
  rw [if_pos hn, if_neg (by simp [ha])]

/-! ### Association-list and aggregation-key lemmas -/

theorem lookupDay_setDay_self (m : List (ℕ × DaySummary)) (d : ℕ) (s : DaySummary) :
    lookupDay d (setDay m d s) = some s := by
  induction m with
  | nil => simp [setDay, lookupDay]
  | cons q rest ih =>
    obtain ⟨d', s'⟩ := q
    by_cases h : d' = d
    · subst h; simp [setDay, lookupDay]
    · simp [setDay, h, lookupDay, Ne.symm h, ih]

theorem lookupDay_setDay_ne (m : List (ℕ × DaySummary)) (d d' : ℕ) (s : DaySummary)
    (h : d' ≠ d) : lookupDay d' (setDay m d s) = lookupDay d' m := by
  induction m with
  | nil => simp [setDay, lookupDay, h]
  | cons q rest ih =>
    obtain ⟨d'', s''⟩ := q
    by_cases h2 : d'' = d
    · subst h2; simp [setDay, lookupDay, h]
    · simp [setDay, h2, lookupDay, ih]

theorem keys_setDay_mem (m : List (ℕ × DaySummary)) (d : ℕ) (s : DaySummary)
    (h : d ∈ m.map Prod.fst) :
    (setDay m d s).map Prod.fst = m.map Prod.fst := by
  induction m with
  | nil => simp at h
  | cons q rest ih =>
    obtain ⟨d', s'⟩ := q
    by_cases h2 : d' = d
    · subst h2; simp [setDay]
    · have : d ∈ rest.map Prod.fst := by
        simpa [Ne.symm h2] using h
      simp [setDay, h2, ih this]

theorem keys_setDay_not_mem (m : List (ℕ × DaySummary)) (d : ℕ) (s : DaySummary)
    (h : d ∉ m.map Prod.fst) :
    (setDay m d s).map Prod.fst = m.map Prod.fst ++ [d] := by
  induction m with
  | nil => simp [setDay]
  | cons q rest ih =>
    obtain ⟨d', s'⟩ := q
    have h1 : d' ≠ d := by rintro rfl; exact h (by simp)
    have h2 : d ∉ rest.map Prod.fst := fun hc => h (by simp [hc])
    simp [setDay, h1, ih h2]

theorem nodup_keys_setDay (m : List (ℕ × DaySummary)) (d : ℕ) (s : DaySummary)
    (h : (m.map Prod.fst).Nodup) : ((setDay m d s).map Prod.fst).Nodup := by
  by_cases hd : d ∈ m.map Prod.fst
  · rw [keys_setDay_mem m d s hd]; exact h
  · rw [keys_setDay_not_mem m d s hd]
    simp [List.nodup_append, h, hd]

theorem nodup_keys_aggEntry (m : List (ℕ × DaySummary)) (r : RawEntry)
    (h : (m.map Prod.fst).Nodup) : ((aggEntry m r).map Prod.fst).Nodup := by
  rcases r with _ | e
  · exact h
  · cases hdt : e.dt with
    | none => simpa [aggEntry, hdt] using h
    | some ts =>
      simp only [aggEntry, hdt]
      exact nodup_keys_setDay _ _ _ h

theorem nodup_keys_aggregate (es : List RawEntry) :
    ((aggregate es).map Prod.fst).Nodup := by
  suffices h : ∀ m : List (ℕ × DaySummary), (m.map Prod.fst).Nodup →
      ((es.foldl aggEntry m).map Prod.fst).Nodup by
    exact h [] (by simp)
  induction es with
  | nil => intro m h; simpa using h
  | cons e rest ih => intro m h; exact ih _ (nodup_keys_aggEntry m e h)

theorem nodup_processedDays (es : List RawEntry) (today : ℕ) :
    (processedDays es today).Nodup := by
  apply List.Nodup.sublist (List.take_sublist _ _)
  apply List.Nodup.filter
  exact (List.perm_insertionSort (· ≤ ·) ((aggregate es).map Prod.fst)).symm.nodup
    (nodup_keys_aggregate es)

theorem mem_keys_aggregate (es : List RawEntry) (d : ℕ)
    (h : d ∈ (aggregate es).map Prod.fst) :
    ∃ e ts, RawEntry.entry e ∈ es ∧ e.dt = some ts ∧ tsDay ts = d := by
  suffices hgen : ∀ m : List (ℕ × DaySummary),
      d ∈ (es.foldl aggEntry m).map Prod.fst →
      d ∈ m.map Prod.fst ∨ ∃ e ts, RawEntry.entry e ∈ es ∧ e.dt = some ts ∧ tsDay ts = d by
    rcases hgen [] h with hc | hc
    · simp at hc
    · exact hc
  clear h
  induction es with
  | nil => intro m hm; exact Or.inl hm
  | cons r rest ih =>
    intro m hm
    rcases ih (aggEntry m r) hm with hc | hc
    · rcases r with _ | e
      · exact Or.inl hc
      · cases hdt : e.dt with
        | none => rw [aggEntry, hdt] at hc; exact Or.inl hc
        | some ts =>
          rw [aggEntry, hdt] at hc
          by_cases hmem : tsDay ts = d
          · exact Or.inr ⟨e, ts, by simp, hdt, hmem⟩
          · left
            by_cases hin : tsDay ts ∈ m.map Prod.fst
            · rwa [keys_setDay_mem _ _ _ hin] at hc
            · rw [keys_setDay_not_mem _ _ _ hin] at hc
              rcases List.mem_append.mp hc with hc2 | hc2
              · exact hc2
              · exact absurd (by simpa using hc2 : d = tsDay ts).symm hmem
    · obtain ⟨e, ts, he, h1, h2⟩ := hc
      exact Or.inr ⟨e, ts, by simp [he], h1, h2⟩

/-! ### The risk loop as a fold over the processed days -/

theorem foldDays_append (th : Thresholds) (m : List (ℕ × DaySummary))
    (l₁ l₂ : List ℕ) (dry hot : ℕ) (r : Risks) :
    foldDays th m (l₁ ++ l₂) dry hot r =
      foldDays th m l₂ (foldDays th m l₁ dry hot r).2.1
        (foldDays th m l₁ dry hot r).2.2 (foldDays th m l₁ dry hot r).1 := by
  induction l₁ generalizing dry hot r with
  | nil => rfl
  | cons d rest ih =>
    simp only [List.cons_append, foldDays]
    exact ih _ _ _

theorem riskLoop_eq_foldDays (th : Thresholds) (today : ℕ)
    (m : List (ℕ × DaySummary)) (l : List ℕ) (dry hot p : ℕ) (r : Risks)
    (hp : p < 5) :
    riskLoop th today m l dry hot p r =
      (foldDays th m ((l.filter (fun d => decide (¬ d < today))).take (5 - p))
        dry hot r).1 := by
  induction l generalizing dry hot p r with
  | nil => simp [riskLoop, foldDays]
  | cons d rest ih =>
    by_cases hd : d < today
    · rw [riskLoop, if_pos hd, List.filter_cons_of_neg (by simpa using hd)]
      exact ih dry hot p r hp
    · rw [riskLoop, if_neg hd, List.filter_cons_of_pos (by simpa using hd)]
      have h5 : 5 - p = (5 - (p + 1)) + 1 := by omega
      rw [h5, List.take_succ_cons, foldDays]
      by_cases hp5 : 5 ≤ p + 1
      · have h0 : 5 - (p + 1) = 0 := by omega
        rw [if_pos hp5, h0, List.take_zero, foldDays]
      · rw [if_neg hp5]
        exact ih _ _ (p + 1) _ (by omega)

theorem assessRisksFrom_eq_foldDays (es : List RawEntry) (th : Thresholds)
    (today : ℕ) :
    assessRisksFrom es th today =
      (foldDays th (aggregate es) (processedDays es today) 0 0 initRisks).1 := by
  have h := riskLoop_eq_foldDays th today (aggregate es)
    (sortedDayKeys (aggregate es)) 0 0 0 initRisks (by omega)
  simpa [assessRisksFrom, processedDays] using h

theorem sorted_processedDays (es : List RawEntry) (today : ℕ) :
    List.Sorted (· ≤ ·) (processedDays es today) := by
  apply List.Pairwise.sublist (List.take_sublist _ _)
  apply List.Pairwise.filter
  exact List.sorted_insertionSort (· ≤ ·) ((aggregate es).map Prod.fst)

/-! ### C4: sorted ascending, past days skipped, capped at 5 -/

/-- C4: `evaluate` applies the risk rules to exactly the ascending-sorted
day keys with dates strictly before `today` discarded and processing capped
at the first 5 remaining days (the whole loop equals a plain fold over that
list); in particular, if every sample's date is before `today`, the returned
report is the all-false report with an empty alert list. -/
theorem evaluate_sorted_filtered_capped (es : List RawEntry) (th : Thresholds)
    (today : ℕ) :
    (es ≠ [] →
      assess_climate_risks_enhanced (.dict (some (.list es))) th today =
        (foldDays th (aggregate es) (processedDays es today) 0 0 initRisks).1) ∧
    List.Sorted (· ≤ ·) (processedDays es today) ∧
    processedDays es today =
      ((sortedDayKeys (aggregate es)).filter (fun d => decide (¬ d < today))).take 5 ∧
    ((∀ e ts, RawEntry.entry e ∈ es → e.dt = some ts → tsDay ts < today) →
      assess_climate_risks_enhanced (.dict (some (.list es))) th today = initRisks) := by
  refine ⟨?_, sorted_processedDays es today, rfl, ?_⟩
  · intro hne
    cases es with
    | nil => exact absurd rfl hne
    | cons e es' => exact assessRisksFrom_eq_foldDays (e :: es') th today
  · intro hpast
    have hfil : (sortedDayKeys (aggregate es)).filter
        (fun d => decide (¬ d < today)) = [] := by
      rw [List.filter_eq_nil_iff]
      intro d hd
      simp only [sortedDayKeys, List.mem_insertionSort] at hd
      obtain ⟨e, ts, he, h1, h2⟩ := mem_keys_aggregate es d hd
      have hlt := hpast e ts he h1
      rw [h2] at hlt
      simp [hlt]
    cases es with
    | nil => rfl
    | cons e es' =>
      have h := assessRisksFrom_eq_foldDays (e :: es') th today
      have h2 : assess_climate_risks_enhanced
          (.dict (some (.list (e :: es')))) th today =
          assessRisksFrom (e :: es') th today := rfl
      rw [h2, h, processedDays, hfil]
      rfl

/-- Witness for C4 at a concrete forecast whose single sample lies in the
past. -/
theorem evaluate_sorted_filtered_capped_wit :
    ([RawEntry.entry ⟨some 0, ⟨none, none, none⟩, none, none⟩] ≠ ([] : List RawEntry)) ∧
    assess_climate_risks_enhanced
        (.dict (some (.list [RawEntry.entry ⟨some 0, ⟨none, none, none⟩, none, none⟩])))
        DEFAULT_THRESHOLDS 5 =
      (foldDays DEFAULT_THRESHOLDS
        (aggregate [RawEntry.entry ⟨some 0, ⟨none, none, none⟩, none, none⟩])
        (processedDays [RawEntry.entry ⟨some 0, ⟨none, none, none⟩, none, none⟩] 5)
        0 0 initRisks).1 ∧
    (∀ e ts, RawEntry.entry e ∈ [RawEntry.entry ⟨some 0, ⟨none, none, none⟩, none, none⟩] →
      e.dt = some ts → tsDay ts < 5) ∧
    assess_climate_risks_enhanced
        (.dict (some (.list [RawEntry.entry ⟨some 0, ⟨none, none, none⟩, none, none⟩])))
        DEFAULT_THRESHOLDS 5 = initRisks := by
  have hpast : ∀ e ts,
      RawEntry.entry e ∈ [RawEntry.entry ⟨some 0, ⟨none, none, none⟩, none, none⟩] →
      e.dt = some ts → tsDay ts < 5 := by
    intro e ts he hdt
    simp only [List.mem_singleton, RawEntry.entry.injEq] at he
    subst he
    simp only at hdt
    cases hdt
    decide
  exact ⟨by decide,
    (evaluate_sorted_filtered_capped _ DEFAULT_THRESHOLDS 5).1 (by decide),
    hpast,
    (evaluate_sorted_filtered_capped _ DEFAULT_THRESHOLDS 5).2.2.2 hpast⟩

/-! ### The min-temp sentinel survives aggregation with no temp_min data -/

theorem min_sentinel_aggEntry (m : List (ℕ × DaySummary)) (r : RawEntry) (d : ℕ)
    (h : ∀ e ts, r = RawEntry.entry e → e.dt = some ts → tsDay ts = d →
      e.main.temp_min = none) :
    (summaryFor (aggEntry m r) d).min_temp = (summaryFor m d).min_temp := by
  rcases r with _ | e
  · rfl
  · cases hdt : e.dt with
    | none => simp [aggEntry, hdt]
    | some ts =>
      simp only [aggEntry, hdt]
      by_cases hday : tsDay ts = d
      · subst hday
        have hnone := h e ts rfl hdt rfl
        simp [summaryFor, lookupDay_setDay_self, updateSummary, hnone]
      · have hne : d ≠ tsDay ts := fun hc => hday hc.symm
        simp [summaryFor, lookupDay_setDay_ne _ _ _ _ hne]

theorem min_sentinel_aggregate (es : List RawEntry) (d : ℕ)
    (h : ∀ e ts, RawEntry.entry e ∈ es → e.dt = some ts → tsDay ts = d →
      e.main.temp_min = none) :
    (summaryFor (aggregate es) d).min_temp = 200 := by
  suffices hgen : ∀ (l : List RawEntry) (m : List (ℕ × DaySummary)),
      (∀ e ts, RawEntry.entry e ∈ l → e.dt = some ts → tsDay ts = d →
        e.main.temp_min = none) →
      (summaryFor m d).min_temp = 200 →
      (summaryFor (l.foldl aggEntry m) d).min_temp = 200 by
    exact hgen es [] h rfl
  intro l
  induction l with
  | nil => intro m _ hm; simpa using hm
  | cons r rest ih =>
    intro m h' hm
    simp only [List.foldl_cons]
    apply ih
    · intro e ts he h1 h2
      exact h' e ts (List.mem_cons_of_mem _ he) h1 h2
    · rw [min_sentinel_aggEntry m r d
        (fun e ts hr h1 h2 => h' e ts (by rw [hr]; exact List.mem_cons_self _ _) h1 h2)]
      exact hm

/-! ### C5: frost triggers exactly on min_temp ≤ threshold -/

/-- C5: on a processed day the frost check fires iff the day's `min_temp`
is `≤` the frost threshold — equality triggers, one degree above does not —
and a day none of whose samples carried a `temp_min` keeps the high sentinel
`200`, so it cannot trigger frost for any threshold below `200`. -/
theorem frost_threshold_boundary (th : Thresholds) (day : ℕ) (s : DaySummary)
    (p : Risks × List Alert) :
    ((s.min_temp ≤ tget th "frost_risk_temp_c" 2 →
        (frostCheck th day s p).1.frost.warning = true ∧
        (frostCheck th day s p).1.frost.details =
          p.1.frost.details ++
            [Alert.frost day s.min_temp (tget th "frost_risk_temp_c" 2)]) ∧
     (¬ s.min_temp ≤ tget th "frost_risk_temp_c" 2 → frostCheck th day s p = p) ∧
     (s.min_temp = tget th "frost_risk_temp_c" 2 →
        (frostCheck th day s p).1.frost.warning = true) ∧
     (s.min_temp = tget th "frost_risk_temp_c" 2 + 1 → frostCheck th day s p = p)) ∧
    (∀ es : List RawEntry,
      (∀ e ts, RawEntry.entry e ∈ es → e.dt = some ts → tsDay ts = day →
        e.main.temp_min = none) →
      (summaryFor (aggregate es) day).min_temp = 200 ∧
      (tget th "frost_risk_temp_c" 2 < 200 →
        ¬ (summaryFor (aggregate es) day).min_temp ≤ tget th "frost_risk_temp_c" 2)) := by
  have hpos : s.min_temp ≤ tget th "frost_risk_temp_c" 2 →
      (frostCheck th day s p).1.frost.warning = true ∧
      (frostCheck th day s p).1.frost.details =
        p.1.frost.details ++
          [Alert.frost day s.min_temp (tget th "frost_risk_temp_c" 2)] := by
    intro h
    simp only [frostCheck]
    rw [if_pos h]
    exact ⟨rfl, rfl⟩
  have hneg : ¬ s.min_temp ≤ tget th "frost_risk_temp_c" 2 →
      frostCheck th day s p = p := by
    intro h
    simp only [frostCheck]
    rw [if_neg h]
  refine ⟨⟨hpos, hneg, ?_, ?_⟩, ?_⟩
  · intro h; exact (hpos (le_of_eq h)).1
  · intro h
    apply hneg
    rw [h]
    exact not_le.mpr (lt_add_one _)
  · intro es hnone
    have hm := min_sentinel_aggregate es day hnone
    exact ⟨hm, fun hlt => by rw [hm]; exact not_le.mpr hlt⟩

/-- Witness for C5 at a concrete summary sitting exactly on the threshold. -/
theorem frost_threshold_boundary_wit :
    ((⟨-100, 2, 0, 0, [], [], 1⟩ : DaySummary).min_temp ≤
        tget DEFAULT_THRESHOLDS "frost_risk_temp_c" 2) ∧
    (frostCheck DEFAULT_THRESHOLDS 0 ⟨-100, 2, 0, 0, [], [], 1⟩
        (initRisks, [])).1.frost.warning = true ∧
    (summaryFor (aggregate []) 0).min_temp = 200 := by
  have hth : tget DEFAULT_THRESHOLDS "frost_risk_temp_c" 2 = 2 := by rfl
  have hle : ((⟨-100, 2, 0, 0, [], [], 1⟩ : DaySummary)).min_temp ≤
      tget DEFAULT_THRESHOLDS "frost_risk_temp_c" 2 := by rw [hth]
  refine ⟨hle, ?_, ?_⟩
  · exact ((frost_threshold_boundary DEFAULT_THRESHOLDS 0 _ (initRisks, [])).1.1 hle).1
  · exact ((frost_threshold_boundary DEFAULT_THRESHOLDS 0
      ⟨-100, 2, 0, 0, [], [], 1⟩ (initRisks, [])).2 []
      (fun e ts he => by simp at he)).1

/-! ### C7: the advisory composer truncates details at 7 -/

/-- C7: when at least one category triggered, the composed advisory's
per-alert detail lines are exactly the first 7 entries of the report's flat
overall-alerts list, and the `"(and potentially more)"` marker line occurs
exactly once iff more than 7 overall alerts exist (never otherwise). -/
theorem advisories_truncate_at_seven (r : Risks) (crop : CropInfo)
    (h : hasAnyWarning r = true) :
    (generate_advisories_enhanced (some r) crop).filter isDetailLine =
      (r.overall_alerts.take 7).map AdvLine.detail ∧
    (generate_advisories_enhanced (some r) crop).filter isMoreMarker =
      (if 7 < r.overall_alerts.length then [AdvLine.moreMarker] else []) := by
  have hne : ¬ hasAnyWarning r = false := by simp [h]
  have hdet : ∀ alerts : List Alert,
      (detailLines alerts).filter isDetailLine =
        (alerts.take 7).map AdvLine.detail := by
    intro alerts
    simp only [detailLines, List.filter_append]
    have h1 : ((alerts.take 7).map AdvLine.detail).filter isDetailLine =
        (alerts.take 7).map AdvLine.detail := by
      rw [List.filter_eq_self]
      intro a ha
      obtain ⟨b, -, rfl⟩ := List.mem_map.mp ha
      rfl
    have h2 : (if 7 < alerts.length then [AdvLine.moreMarker] else []).filter
        isDetailLine = [] := by
      split <;> rfl
    rw [h1, h2, List.append_nil]
  have hmark : ∀ alerts : List Alert,
      (detailLines alerts).filter isMoreMarker =
        (if 7 < alerts.length then [AdvLine.moreMarker] else []) := by
    intro alerts
    simp only [detailLines, List.filter_append]
    have h1 : ((alerts.take 7).map AdvLine.detail).filter isMoreMarker = [] := by
      rw [List.filter_eq_nil_iff]
      intro a ha
      obtain ⟨b, -, rfl⟩ := List.mem_map.mp ha
      simp [isMoreMarker]
    have h2 : (if 7 < alerts.length then [AdvLine.moreMarker] else []).filter
        isMoreMarker = (if 7 < alerts.length then [AdvLine.moreMarker] else []) := by
      split <;> rfl
    rw [h1, h2, List.nil_append]
  have hcat : ∀ (c : Prop) (inst : Decidable c) (l : List AdvLine) (f : AdvLine → Bool),
      (l.filter f = []) → (if c then l else []).filter f = [] := by
    intro c inst l f hl
    split
    · exact hl
    · rfl
  have hdr : ∀ f : AdvLine → Bool, f AdvLine.droughtWarn = false →
      f AdvLine.droughtAdvice = false → (∀ st, f (AdvLine.droughtCritical st) = false) →
      f AdvLine.droughtAdjust = false →
      ([AdvLine.droughtWarn, AdvLine.droughtAdvice] ++
        (if crop.stage = some "Flowering" ∨ crop.stage = some "Fruiting/Maturity"
         then [AdvLine.droughtCritical crop.stage] else [AdvLine.droughtAdjust])).filter
        f = [] := by
    intro f h1 h2 h3 h4
    split
    · simp [h1, h2, h3]
    · simp [h1, h2, h4]
  simp only [generate_advisories_enhanced]
  rw [if_neg hne]
  constructor
  · simp only [List.filter_append]
    rw [hcat _ _ _ _ (hdr isDetailLine rfl rfl (fun st => rfl) rfl),
        hcat _ _ [AdvLine.floodWarn] isDetailLine rfl,
        hcat _ _ [AdvLine.heatwaveWarn] isDetailLine rfl,
        hcat _ _ [AdvLine.frostWarn] isDetailLine rfl,
        hcat _ _ [AdvLine.windWarn] isDetailLine rfl,
        hcat _ _ [AdvLine.humidityWarn] isDetailLine rfl,
        show List.filter isDetailLine [AdvLine.header] = [] from rfl,
        show List.filter isDetailLine [AdvLine.sepLine, AdvLine.disclaimer] = [] from rfl]
    simp only [List.nil_append, List.append_nil]
    by_cases he : r.overall_alerts.isEmpty
    · rw [if_pos he]
      simp [List.isEmpty_iff.mp he]
    · rw [if_neg he]
      simp [show isDetailLine AdvLine.detailsHeader = false from rfl, hdet]
  · simp only [List.filter_append]
    rw [hcat _ _ _ _ (hdr isMoreMarker rfl rfl (fun st => rfl) rfl),
        hcat _ _ [AdvLine.floodWarn] isMoreMarker rfl,
        hcat _ _ [AdvLine.heatwaveWarn] isMoreMarker rfl,
        hcat _ _ [AdvLine.frostWarn] isMoreMarker rfl,
        hcat _ _ [AdvLine.windWarn] isMoreMarker rfl,
        hcat _ _ [AdvLine.humidityWarn] isMoreMarker rfl,
        show List.filter isMoreMarker [AdvLine.header] = [] from rfl,
        show List.filter isMoreMarker [AdvLine.sepLine, AdvLine.disclaimer] = [] from rfl]
    simp only [List.nil_append, List.append_nil]
    by_cases he : r.overall_alerts.isEmpty
    · rw [if_pos he]
      simp [List.isEmpty_iff.mp he]
    · rw [if_neg he]
      simp [show isMoreMarker AdvLine.detailsHeader = false from rfl, hmark]

/-- Witness for C7 at a concrete report with 8 overall alerts. -/
theorem advisories_truncate_at_seven_wit :
    hasAnyWarning ⟨⟨false, []⟩, ⟨false, []⟩, ⟨true, [Alert.heatwave 3 38 2]⟩, ⟨false, []⟩, ⟨false, []⟩, ⟨false, []⟩, [Alert.heatwave 3 38 0, Alert.heatwave 3 38 1, Alert.heatwave 3 38 2, Alert.heatwave 3 38 3, Alert.heatwave 3 38 4, Alert.heatwave 3 38 5, Alert.heatwave 3 38 6, Alert.heatwave 3 38 7]⟩ = true ∧
    ((generate_advisories_enhanced (some ⟨⟨false, []⟩, ⟨false, []⟩, ⟨true, [Alert.heatwave 3 38 2]⟩, ⟨false, []⟩, ⟨false, []⟩, ⟨false, []⟩, [Alert.heatwave 3 38 0, Alert.heatwave 3 38 1, Alert.heatwave 3 38 2, Alert.heatwave 3 38 3, Alert.heatwave 3 38 4, Alert.heatwave 3 38 5, Alert.heatwave 3 38 6, Alert.heatwave 3 38 7]⟩) ⟨none, none⟩).filter isDetailLine =
      ((Risks.overall_alerts ⟨⟨false, []⟩, ⟨false, []⟩, ⟨true, [Alert.heatwave 3 38 2]⟩, ⟨false, []⟩, ⟨false, []⟩, ⟨false, []⟩, [Alert.heatwave 3 38 0, Alert.heatwave 3 38 1, Alert.heatwave 3 38 2, Alert.heatwave 3 38 3, Alert.heatwave 3 38 4, Alert.heatwave 3 38 5, Alert.heatwave 3 38 6, Alert.heatwave 3 38 7]⟩).take 7).map AdvLine.detail ∧
     (generate_advisories_enhanced (some ⟨⟨false, []⟩, ⟨false, []⟩, ⟨true, [Alert.heatwave 3 38 2]⟩, ⟨false, []⟩, ⟨false, []⟩, ⟨false, []⟩, [Alert.heatwave 3 38 0, Alert.heatwave 3 38 1, Alert.heatwave 3 38 2, Alert.heatwave 3 38 3, Alert.heatwave 3 38 4, Alert.heatwave 3 38 5, Alert.heatwave 3 38 6, Alert.heatwave 3 38 7]⟩) ⟨none, none⟩).filter isMoreMarker =
      (if 7 < (Risks.overall_alerts ⟨⟨false, []⟩, ⟨false, []⟩, ⟨true, [Alert.heatwave 3 38 2]⟩, ⟨false, []⟩, ⟨false, []⟩, ⟨false, []⟩, [Alert.heatwave 3 38 0, Alert.heatwave 3 38 1, Alert.heatwave 3 38 2, Alert.heatwave 3 38 3, Alert.heatwave 3 38 4, Alert.heatwave 3 38 5, Alert.heatwave 3 38 6, Alert.heatwave 3 38 7]⟩).length then [AdvLine.moreMarker] else [])) :=
  ⟨rfl, advisories_truncate_at_seven ⟨⟨false, []⟩, ⟨false, []⟩, ⟨true, [Alert.heatwave 3 38 2]⟩, ⟨false, []⟩, ⟨false, []⟩, ⟨false, []⟩, [Alert.heatwave 3 38 0, Alert.heatwave 3 38 1, Alert.heatwave 3 38 2, Alert.heatwave 3 38 3, Alert.heatwave 3 38 4, Alert.heatwave 3 38 5, Alert.heatwave 3 38 6, Alert.heatwave 3 38 7]⟩ ⟨none, none⟩ rfl⟩

/-! ### Drought behaviour of one processed day -/

theorem droughtCheck_skip (th : Thresholds) (d n : ℕ) (p : Risks × List Alert)
    (hn : ¬ tget th "drought_risk_days" 7 ≤ (n : ℚ)) :
    droughtCheck th d n p = p := by
  simp only [droughtCheck]
  rw [if_neg]
  rintro ⟨hc, -⟩
  exact hn hc

theorem checksChain_drought (th : Thresholds) (d : ℕ) (s : DaySummary) (r : Risks) :
    (humidityCheck th d s (windCheck th d s (floodCheck th d s
      (frostCheck th d s (r, []))))).1.drought = r.drought := by
  rw [humidityCheck_drought, windCheck_drought, floodCheck_drought, frostCheck_drought]

theorem ifExtend_drought (x : Risks) (da : List Alert) :
    (if da.isEmpty then x
     else { x with overall_alerts := x.overall_alerts ++ da }).drought = x.drought := by
  split <;> rfl

theorem ifExtend_heatwave (x : Risks) (da : List Alert) :
    (if da.isEmpty then x
     else { x with overall_alerts := x.overall_alerts ++ da }).heatwave = x.heatwave := by
  split <;> rfl

theorem processDay_dry (th : Thresholds) (d : ℕ) (s : DaySummary) (dry hot : ℕ)
    (r : Risks) :
    (processDay th d s dry hot r).2.1 =
      if s.total_rain ≤ tget th "drought_risk_mm" 2 then dry + 1 else 0 := rfl

theorem processDay_hot (th : Thresholds) (d : ℕ) (s : DaySummary) (dry hot : ℕ)
    (r : Risks) :
    (processDay th d s dry hot r).2.2 =
      if tget th "heatwave_temp_c" 38 ≤ s.max_temp then hot + 1 else 0 := rfl

theorem processDay_drought (th : Thresholds) (d : ℕ) (s : DaySummary) (dry hot : ℕ)
    (r : Risks) :
    (processDay th d s dry hot r).1.drought =
      (droughtCheck th d
        (if s.total_rain ≤ tget th "drought_risk_mm" 2 then dry + 1 else 0)
        (humidityCheck th d s (windCheck th d s (floodCheck th d s
          (frostCheck th d s (r, [])))))).1.drought := by
  simp only [processDay]
  rw [ifExtend_drought, heatwaveCheck_drought]

theorem processDay_drought_frozen (th : Thresholds) (d : ℕ) (s : DaySummary)
    (dry hot : ℕ) (r : Risks) (h : r.drought.warning = true) :
    (processDay th d s dry hot r).1.drought = r.drought := by
  have hchain := checksChain_drought th d s r
  rw [processDay_drought, droughtCheck_frozen _ _ _ _ (by rw [hchain]; exact h), hchain]

theorem processDay_drought_fires (th : Thresholds) (d : ℕ) (s : DaySummary)
    (dry hot : ℕ) (r : Risks)
    (hdry : s.total_rain ≤ tget th "drought_risk_mm" 2)
    (hn : tget th "drought_risk_days" 7 ≤ ((dry + 1 : ℕ) : ℚ)) :
    (processDay th d s dry hot r).1.drought.warning = true := by
  have hchain := checksChain_drought th d s r
  rw [processDay_drought, if_pos hdry]
  by_cases hw : r.drought.warning
  · rw [droughtCheck_frozen _ _ _ _ (by rw [hchain]; exact hw), hchain]
    exact hw
  · rw [droughtCheck_fires _ _ _ _ hn (by rw [hchain]; simpa using hw)]

theorem processDay_drought_once (th : Thresholds) (d : ℕ) (s : DaySummary)
    (dry hot : ℕ) (r : Risks)
    (h : (r.drought.warning = false ∧ r.drought.details = []) ∨
         (r.drought.warning = true ∧ r.drought.details.length = 1)) :
    ((processDay th d s dry hot r).1.drought.warning = false ∧
       (processDay th d s dry hot r).1.drought.details = []) ∨
    ((processDay th d s dry hot r).1.drought.warning = true ∧
       (processDay th d s dry hot r).1.drought.details.length = 1) := by
  have hchain := checksChain_drought th d s r
  rcases h with ⟨h1, h2⟩ | ⟨h1, h2⟩
  · rw [processDay_drought]
    by_cases hn : tget th "drought_risk_days" 7 ≤
        ((if s.total_rain ≤ tget th "drought_risk_mm" 2 then dry + 1 else 0 : ℕ) : ℚ)
    · rw [droughtCheck_fires _ _ _ _ hn (by rw [hchain]; exact h1)]
      right
      refine ⟨rfl, ?_⟩
      simp [hchain, h2]
    · rw [droughtCheck_skip _ _ _ _ hn, hchain]
      exact Or.inl ⟨h1, h2⟩
  · right
    rw [processDay_drought_frozen th d s dry hot r h1]
    exact ⟨h1, h2⟩

/-! ### Drought behaviour of the whole fold -/

theorem foldDays_drought_frozen (th : Thresholds) (m : List (ℕ × DaySummary)) :
    ∀ (l : List ℕ) (dry hot : ℕ) (r : Risks), r.drought.warning = true →
      (foldDays th m l dry hot r).1.drought = r.drought := by
  intro l
  induction l with
  | nil => intro dry hot r _; rfl
  | cons d rest ih =>
    intro dry hot r h
    simp only [foldDays]
    have hq := processDay_drought_frozen th d ((lookupDay d m).getD initSummary)
      dry hot r h
    rw [ih _ _ _ (by rw [hq]; exact h), hq]

theorem foldDays_drought_once (th : Thresholds) (m : List (ℕ × DaySummary)) :
    ∀ (l : List ℕ) (dry hot : ℕ) (r : Risks),
      ((r.drought.warning = false ∧ r.drought.details = []) ∨
       (r.drought.warning = true ∧ r.drought.details.length = 1)) →
      (((foldDays th m l dry hot r).1.drought.warning = false ∧
          (foldDays th m l dry hot r).1.drought.details = []) ∨
       ((foldDays th m l dry hot r).1.drought.warning = true ∧
          (foldDays th m l dry hot r).1.drought.details.length = 1)) := by
  intro l
  induction l with
  | nil => intro dry hot r h; exact h
  | cons d rest ih =>
    intro dry hot r h
    simp only [foldDays]
    exact ih _ _ _ (processDay_drought_once th d _ dry hot r h)

theorem foldDays_dry_counter (th : Thresholds) (m : List (ℕ × DaySummary)) :
    ∀ (l : List ℕ) (dry hot : ℕ) (r : Risks), (∀ d ∈ l, isDry th m d) →
      (foldDays th m l dry hot r).2.1 = dry + l.length := by
  intro l
  induction l with
  | nil => intro dry hot r _; rfl
  | cons d rest ih =>
    intro dry hot r h
    simp only [foldDays]
    rw [ih _ _ _ (fun x hx => h x (List.mem_cons_of_mem _ hx))]
    have hd := h d (List.mem_cons_self d rest)
    simp only [isDry, summaryFor] at hd
    rw [processDay_dry, if_pos hd]
    simp only [List.length_cons]
    omega

theorem foldDays_dry_fires (th : Thresholds) (m : List (ℕ × DaySummary)) :
    ∀ (l : List ℕ) (dry hot : ℕ) (r : Risks), l ≠ [] → (∀ d ∈ l, isDry th m d) →
      tget th "drought_risk_days" 7 ≤ ((dry + l.length : ℕ) : ℚ) →
      (foldDays th m l dry hot r).1.drought.warning = true := by
  intro l
  induction l with
  | nil => intro dry hot r hne; exact absurd rfl hne
  | cons d rest ih =>
    intro dry hot r _ hall hth
    have hd := hall d (List.mem_cons_self d rest)
    simp only [isDry, summaryFor] at hd
    simp only [foldDays]
    rcases eq_or_ne rest [] with hr | hr
    · subst hr
      simp only [foldDays]
      apply processDay_drought_fires th d _ dry hot r hd
      simpa using hth
    · have hq : (processDay th d ((lookupDay d m).getD initSummary) dry hot r).2.1 =
          dry + 1 := by
        rw [processDay_dry, if_pos hd]
      apply ih _ _ _ hr (fun x hx => hall x (List.mem_cons_of_mem _ hx))
      rw [hq]
      have harith : dry + 1 + rest.length = dry + (d :: rest).length := by
        simp [List.length_cons]; omega
      rw [harith]
      exact hth

/-! ### C2: the drought flag fires once and appends exactly one detail -/

/-- C2: if among the processed days there are `N` consecutive days, each
with `total_rain ≤` the drought-mm threshold, where `N` equals the
drought-days threshold (`N ≥ 1`), then the returned report has the drought
flag set and its drought details list has length exactly 1 — later
qualifying days never append a second drought detail. -/
theorem drought_triggers_exactly_once (es : List RawEntry) (th : Thresholds)
    (today N : ℕ) (l₁ w l₂ : List ℕ)
    (hp : processedDays es today = l₁ ++ w ++ l₂)
    (hdry : ∀ d ∈ w, isDry th (aggregate es) d)
    (hN : w.length = N) (hN1 : 1 ≤ N)
    (hthr : (N : ℚ) = tget th "drought_risk_days" 7) :
    (assess_climate_risks_enhanced (.dict (some (.list es))) th today).drought.warning
        = true ∧
    (assess_climate_risks_enhanced (.dict (some (.list es))) th today).drought.details.length
        = 1 := by
  cases es with
  | nil =>
    exfalso
    have h0 : l₁ ++ w ++ l₂ = [] := by rw [← hp]; rfl
    rcases List.append_eq_nil.mp h0 with ⟨h01, -⟩
    rcases List.append_eq_nil.mp h01 with ⟨-, h03⟩
    rw [h03] at hN
    simp at hN
    omega
  | cons e es' =>
    have hwne : w ≠ [] := by
      intro hc
      rw [hc] at hN
      simp at hN
      omega
    have heval := assessRisksFrom_eq_foldDays (e :: es') th today
    have heval2 : assess_climate_risks_enhanced (.dict (some (.list (e :: es')))) th today
        = assessRisksFrom (e :: es') th today := rfl
    rw [heval2, heval, hp, foldDays_append, foldDays_append]
    set q1 := foldDays th (aggregate (e :: es')) l₁ 0 0 initRisks with hq1
    set q2 := foldDays th (aggregate (e :: es')) w q1.2.1 q1.2.2 q1.1 with hq2
    have hinv1 := foldDays_drought_once th (aggregate (e :: es')) l₁ 0 0 initRisks
      (Or.inl ⟨rfl, rfl⟩)
    rw [← hq1] at hinv1
    rcases hinv1 with ⟨hw1, hd1⟩ | ⟨hw1, hd1⟩
    · -- not yet warned after `l₁`; the all-dry window `w` fires the flag
      have hfire := foldDays_dry_fires th (aggregate (e :: es')) w q1.2.1 q1.2.2 q1.1
        hwne hdry
        (by rw [← hthr]
            exact_mod_cast Nat.cast_le.mpr (by rw [hN]; exact Nat.le_add_left N _))
      rw [← hq2] at hfire
      have hinv2 := foldDays_drought_once th (aggregate (e :: es')) w
        q1.2.1 q1.2.2 q1.1 (Or.inl ⟨hw1, hd1⟩)
      rw [← hq2] at hinv2
      rcases hinv2 with ⟨hw2, -⟩ | ⟨hw2, hd2⟩
      · rw [hfire] at hw2
        exact absurd hw2 (by simp)
      · have hfrozen := foldDays_drought_frozen th (aggregate (e :: es')) l₂
          q2.2.1 q2.2.2 q2.1 hw2
        rw [hfrozen]
        exact ⟨hw2, hd2⟩
    · -- already warned after `l₁`: frozen through `w` and `l₂`
      have hf2 := foldDays_drought_frozen th (aggregate (e :: es')) w
        q1.2.1 q1.2.2 q1.1 hw1
      rw [← hq2] at hf2
      have hf3 := foldDays_drought_frozen th (aggregate (e :: es')) l₂
        q2.2.1 q2.2.2 q2.1 (by rw [hf2]; exact hw1)
      rw [hf3, hf2]
      exact ⟨hw1, hd1⟩

/-- Witness for C2: three all-dry days against a drought-days threshold
lowered to 3. -/
theorem drought_triggers_exactly_once_wit :
    (processedDays [RawEntry.entry ⟨some 0, ⟨none, none, none⟩, none, none⟩, RawEntry.entry ⟨some 86400, ⟨none, none, none⟩, none, none⟩, RawEntry.entry ⟨some 172800, ⟨none, none, none⟩, none, none⟩] 0 = [] ++ [0, 1, 2] ++ []) ∧
    (∀ d ∈ [0, 1, 2], isDry (tset DEFAULT_THRESHOLDS "drought_risk_days" 3) (aggregate [RawEntry.entry ⟨some 0, ⟨none, none, none⟩, none, none⟩, RawEntry.entry ⟨some 86400, ⟨none, none, none⟩, none, none⟩, RawEntry.entry ⟨some 172800, ⟨none, none, none⟩, none, none⟩]) d) ∧
    ([0, 1, 2] : List ℕ).length = 3 ∧ 1 ≤ 3 ∧
    ((3 : ℚ) = tget (tset DEFAULT_THRESHOLDS "drought_risk_days" 3) "drought_risk_days" 7) ∧
    ((assess_climate_risks_enhanced (.dict (some (.list [RawEntry.entry ⟨some 0, ⟨none, none, none⟩, none, none⟩, RawEntry.entry ⟨some 86400, ⟨none, none, none⟩, none, none⟩, RawEntry.entry ⟨some 172800, ⟨none, none, none⟩, none, none⟩]))) (tset DEFAULT_THRESHOLDS "drought_risk_days" 3) 0).drought.warning
        = true ∧
     (assess_climate_risks_enhanced (.dict (some (.list [RawEntry.entry ⟨some 0, ⟨none, none, none⟩, none, none⟩, RawEntry.entry ⟨some 86400, ⟨none, none, none⟩, none, none⟩, RawEntry.entry ⟨some 172800, ⟨none, none, none⟩, none, none⟩]))) (tset DEFAULT_THRESHOLDS "drought_risk_days" 3) 0).drought.details.length
        = 1) := by
  have hdry : ∀ d ∈ [0, 1, 2], isDry (tset DEFAULT_THRESHOLDS "drought_risk_days" 3) (aggregate [RawEntry.entry ⟨some 0, ⟨none, none, none⟩, none, none⟩, RawEntry.entry ⟨some 86400, ⟨none, none, none⟩, none, none⟩, RawEntry.entry ⟨some 172800, ⟨none, none, none⟩, none, none⟩]) d := by
    intro d hd
    fin_cases hd <;>
    · simp [isDry, summaryFor, aggregate, aggEntry, updateSummary,
        setDay, lookupDay, tsDay, initSummary, tget, tset, DEFAULT_THRESHOLDS]
  have hp : processedDays [RawEntry.entry ⟨some 0, ⟨none, none, none⟩, none, none⟩, RawEntry.entry ⟨some 86400, ⟨none, none, none⟩, none, none⟩, RawEntry.entry ⟨some 172800, ⟨none, none, none⟩, none, none⟩] 0 = [] ++ [0, 1, 2] ++ [] := by decide
  have hthr : (3 : ℚ) = tget (tset DEFAULT_THRESHOLDS "drought_risk_days" 3) "drought_risk_days" 7 := by decide
  exact ⟨hp, hdry, rfl, by norm_num, hthr,
    drought_triggers_exactly_once [RawEntry.entry ⟨some 0, ⟨none, none, none⟩, none, none⟩, RawEntry.entry ⟨some 86400, ⟨none, none, none⟩, none, none⟩, RawEntry.entry ⟨some 172800, ⟨none, none, none⟩, none, none⟩] (tset DEFAULT_THRESHOLDS "drought_risk_days" 3) 0 3 [] [0, 1, 2] [] hp hdry rfl
      (by norm_num) hthr⟩

/-! ### Heatwave behaviour of one processed day and of the fold -/

theorem checksChain_heatwave (th : Thresholds) (d : ℕ) (s : DaySummary) (n : ℕ)
    (r : Risks) :
    (droughtCheck th d n (humidityCheck th d s (windCheck th d s (floodCheck th d s
      (frostCheck th d s (r, [])))))).1.heatwave = r.heatwave := by
  rw [droughtCheck_heatwave, humidityCheck_heatwave, windCheck_heatwave,
    floodCheck_heatwave, frostCheck_heatwave]

theorem processDay_heatwave (th : Thresholds) (d : ℕ) (s : DaySummary)
    (dry hot : ℕ) (r : Risks) :
    (processDay th d s dry hot r).1.heatwave =
      (heatwaveCheck th d
        (if tget th "heatwave_temp_c" 38 ≤ s.max_temp then hot + 1 else 0)
        (droughtCheck th d
          (if s.total_rain ≤ tget th "drought_risk_mm" 2 then dry + 1 else 0)
          (humidityCheck th d s (windCheck th d s (floodCheck th d s
            (frostCheck th d s (r, []))))))).1.heatwave := by
  simp only [processDay]
  rw [ifExtend_heatwave]

theorem processDay_heatwave_below (th : Thresholds) (d : ℕ) (s : DaySummary)
    (dry hot : ℕ) (r : Risks)
    (hn : ¬ tget th "heatwave_days" 3 ≤
      ((if tget th "heatwave_temp_c" 38 ≤ s.max_temp then hot + 1 else 0 : ℕ) : ℚ)) :
    (processDay th d s dry hot r).1.heatwave = r.heatwave := by
  rw [processDay_heatwave, heatwaveCheck_below _ _ _ _ hn, checksChain_heatwave]

theorem processDay_heatwave_fires (th : Thresholds) (d : ℕ) (s : DaySummary)
    (dry hot : ℕ) (r : Risks)
    (hhot : tget th "heatwave_temp_c" 38 ≤ s.max_temp)
    (hn : tget th "heatwave_days" 3 ≤ ((hot + 1 : ℕ) : ℚ))
    (ha : r.heatwave.details.any (fun a => a.mentionsEnding d) = false) :
    (processDay th d s dry hot r).1.heatwave.details =
      r.heatwave.details ++
        [Alert.heatwave (hot + 1) (tget th "heatwave_temp_c" 38) d] := by
  rw [processDay_heatwave, if_pos hhot]
  rw [heatwaveCheck_fires _ _ _ _ hn (by rw [checksChain_heatwave]; exact ha)]
  simp [checksChain_heatwave]

theorem foldDays_hot_counter (th : Thresholds) (m : List (ℕ × DaySummary)) :
    ∀ (l : List ℕ) (dry hot : ℕ) (r : Risks), (∀ d ∈ l, isHot th m d) →
      (foldDays th m l dry hot r).2.2 = hot + l.length := by
  intro l
  induction l with
  | nil => intro dry hot r _; rfl
  | cons d rest ih =>
    intro dry hot r h
    simp only [foldDays]
    rw [ih _ _ _ (fun x hx => h x (List.mem_cons_of_mem _ hx))]
    have hd := h d (List.mem_cons_self d rest)
    simp only [isHot, summaryFor] at hd
    rw [processDay_hot, if_pos hd]
    simp only [List.length_cons]
    omega

theorem foldDays_heatwave_quiet (th : Thresholds) (m : List (ℕ × DaySummary)) :
    ∀ (l : List ℕ) (dry hot : ℕ) (r : Risks), (∀ d ∈ l, isHot th m d) →
      ((hot + l.length : ℕ) : ℚ) < tget th "heatwave_days" 3 →
      (foldDays th m l dry hot r).1.heatwave = r.heatwave := by
  intro l
  induction l with
  | nil => intro dry hot r _ _; rfl
  | cons d rest ih =>
    intro dry hot r hall hlt
    have hd := hall d (List.mem_cons_self d rest)
    simp only [isHot, summaryFor] at hd
    simp only [foldDays]
    have hq2 : (processDay th d ((lookupDay d m).getD initSummary) dry hot r).2.2 =
        hot + 1 := by
      rw [processDay_hot, if_pos hd]
    have hstep : ((hot + 1 : ℕ) : ℚ) < tget th "heatwave_days" 3 := by
      refine lt_of_le_of_lt ?_ hlt
      have hle : hot + 1 ≤ hot + (d :: rest).length := by
        simp [List.length_cons]
      exact_mod_cast hle
    have hqh : (processDay th d ((lookupDay d m).getD initSummary) dry hot r).1.heatwave
        = r.heatwave := by
      apply processDay_heatwave_below
      rw [if_pos hd]
      exact not_le.mpr hstep
    rw [ih _ _ _ (fun x hx => hall x (List.mem_cons_of_mem _ hx)) ?hcnt, hqh]
    case hcnt =>
      rw [hq2]
      have heq : hot + 1 + rest.length = hot + (d :: rest).length := by
        simp [List.length_cons]
        omega
      rw [heq]
      exact hlt

/-! ### C3: a threshold-length streak plus one more hot day -/

/-- C3: when the processed days are exactly a hot streak of length
`k − 1` followed by two further hot days (so the streak reaches the
heatwave-days threshold `k` on day `d₁` and continues on day `d₂`), the
heatwave category receives exactly two details with the two distinct ending
dates; moreover, on any day whose streak has reached the threshold, a
detail is appended iff no existing heatwave detail mentions that ending
date. -/
theorem heatwave_two_distinct_endings (es : List RawEntry) (th : Thresholds)
    (today k : ℕ) (w : List ℕ) (d₁ d₂ : ℕ)
    (hp : processedDays es today = w ++ [d₁, d₂])
    (hk : w.length + 1 = k)
    (hthr : (k : ℚ) = tget th "heatwave_days" 3)
    (hall : ∀ d ∈ w ++ [d₁, d₂], isHot th (aggregate es) d) :
    ((assess_climate_risks_enhanced (.dict (some (.list es))) th today).heatwave.details
        = [Alert.heatwave k (tget th "heatwave_temp_c" 38) d₁,
           Alert.heatwave (k + 1) (tget th "heatwave_temp_c" 38) d₂] ∧
      d₁ ≠ d₂) ∧
    (∀ (day n : ℕ) (p : Risks × List Alert), tget th "heatwave_days" 3 ≤ (n : ℚ) →
      ((heatwaveCheck th day n p).1.heatwave.details ≠ p.1.heatwave.details ↔
        p.1.heatwave.details.any (fun a => a.mentionsEnding day) = false)) := by
  have hdedup : ∀ (day n : ℕ) (p : Risks × List Alert),
      tget th "heatwave_days" 3 ≤ (n : ℚ) →
      ((heatwaveCheck th day n p).1.heatwave.details ≠ p.1.heatwave.details ↔
        p.1.heatwave.details.any (fun a => a.mentionsEnding day) = false) := by
    intro day n p hn
    cases ha : p.1.heatwave.details.any (fun a => a.mentionsEnding day) with
    | true => rw [heatwaveCheck_already _ _ _ _ hn ha]; simp
    | false => rw [heatwaveCheck_fires _ _ _ _ hn ha]; simp
  refine ⟨?_, hdedup⟩
  cases es with
  | nil =>
    exfalso
    have h0 : w ++ [d₁, d₂] = [] := by rw [← hp]; rfl
    rcases List.append_eq_nil.mp h0 with ⟨-, h02⟩
    exact List.cons_ne_nil _ _ h02
  | cons e es' =>
    have hne : d₁ ≠ d₂ := by
      have hnd := nodup_processedDays (e :: es') today
      rw [hp] at hnd
      have h2 := (List.sublist_append_right w [d₁, d₂]).nodup hnd
      simp [List.nodup_cons] at h2
      exact h2
    have heval := assessRisksFrom_eq_foldDays (e :: es') th today
    have heval2 : assess_climate_risks_enhanced (.dict (some (.list (e :: es')))) th today
        = assessRisksFrom (e :: es') th today := rfl
    refine ⟨?_, hne⟩
    rw [heval2, heval, hp, foldDays_append]
    set m := aggregate (e :: es') with hmm
    set q1 := foldDays th m w 0 0 initRisks with hq1
    have hallw : ∀ d ∈ w, isHot th m d :=
      fun d hd => hall d (List.mem_append_left _ hd)
    have h1hot : tget th "heatwave_temp_c" 38 ≤
        ((lookupDay d₁ m).getD initSummary).max_temp := by
      have := hall d₁ (by simp)
      simpa [isHot, summaryFor] using this
    have h2hot : tget th "heatwave_temp_c" 38 ≤
        ((lookupDay d₂ m).getD initSummary).max_temp := by
      have := hall d₂ (by simp)
      simpa [isHot, summaryFor] using this
    have hq1h : q1.1.heatwave = initRisks.heatwave := by
      apply foldDays_heatwave_quiet th m w 0 0 initRisks hallw
      rw [← hthr]
      have hlt0 : 0 + w.length < k := by omega
      exact_mod_cast hlt0
    have hq1c : q1.2.2 = w.length := by
      rw [hq1, foldDays_hot_counter th m w 0 0 initRisks hallw]
      omega
    have hcK : q1.2.2 + 1 = k := by rw [hq1c]; omega
    simp only [foldDays]
    have h1n : tget th "heatwave_days" 3 ≤ ((q1.2.2 + 1 : ℕ) : ℚ) := by
      rw [hcK, ← hthr]
    have h1a : q1.1.heatwave.details.any (fun a => a.mentionsEnding d₁) = false := by
      rw [hq1h]; rfl
    have h1d := processDay_heatwave_fires th d₁ ((lookupDay d₁ m).getD initSummary)
      q1.2.1 q1.2.2 q1.1 h1hot h1n h1a
    have hc1 : (processDay th d₁ ((lookupDay d₁ m).getD initSummary)
        q1.2.1 q1.2.2 q1.1).2.2 = k := by
      rw [processDay_hot, if_pos h1hot, hcK]
    have h2n : tget th "heatwave_days" 3 ≤
        (((processDay th d₁ ((lookupDay d₁ m).getD initSummary)
          q1.2.1 q1.2.2 q1.1).2.2 + 1 : ℕ) : ℚ) := by
      rw [hc1, ← hthr]
      have hle : k ≤ k + 1 := Nat.le_succ k
      exact_mod_cast hle
    have h2a : (processDay th d₁ ((lookupDay d₁ m).getD initSummary)
        q1.2.1 q1.2.2 q1.1).1.heatwave.details.any
          (fun a => a.mentionsEnding d₂) = false := by
      rw [h1d, hq1h]
      simp [Alert.mentionsEnding, initRisks, initCat, hne]
    rw [processDay_heatwave_fires th d₂ ((lookupDay d₂ m).getD initSummary)
      _ _ _ h2hot h2n h2a, h1d, hq1h, hc1, hcK]
    simp [initRisks, initCat]

/-- Witness for C3: four hot days against the default thresholds
(streak threshold 3 reached on day 2, continued on day 3). -/
theorem heatwave_two_distinct_endings_wit :
    (processedDays [RawEntry.entry ⟨some 0, ⟨some 40, none, none⟩, none, none⟩, RawEntry.entry ⟨some 86400, ⟨some 40, none, none⟩, none, none⟩, RawEntry.entry ⟨some 172800, ⟨some 40, none, none⟩, none, none⟩, RawEntry.entry ⟨some 259200, ⟨some 40, none, none⟩, none, none⟩] 0 = [0, 1] ++ [2, 3]) ∧
    (([0, 1] : List ℕ).length + 1 = 3) ∧
    (((3 : ℕ) : ℚ) = tget DEFAULT_THRESHOLDS "heatwave_days" 3) ∧
    (∀ d ∈ [0, 1] ++ [2, 3], isHot DEFAULT_THRESHOLDS (aggregate [RawEntry.entry ⟨some 0, ⟨some 40, none, none⟩, none, none⟩, RawEntry.entry ⟨some 86400, ⟨some 40, none, none⟩, none, none⟩, RawEntry.entry ⟨some 172800, ⟨some 40, none, none⟩, none, none⟩, RawEntry.entry ⟨some 259200, ⟨some 40, none, none⟩, none, none⟩]) d) ∧
    ((assess_climate_risks_enhanced (.dict (some (.list [RawEntry.entry ⟨some 0, ⟨some 40, none, none⟩, none, none⟩, RawEntry.entry ⟨some 86400, ⟨some 40, none, none⟩, none, none⟩, RawEntry.entry ⟨some 172800, ⟨some 40, none, none⟩, none, none⟩, RawEntry.entry ⟨some 259200, ⟨some 40, none, none⟩, none, none⟩])))
        DEFAULT_THRESHOLDS 0).heatwave.details
      = [Alert.heatwave 3 (tget DEFAULT_THRESHOLDS "heatwave_temp_c" 38) 2,
         Alert.heatwave (3 + 1) (tget DEFAULT_THRESHOLDS "heatwave_temp_c" 38) 3] ∧
     (2 : ℕ) ≠ 3) := by
  have hp : processedDays [RawEntry.entry ⟨some 0, ⟨some 40, none, none⟩, none, none⟩, RawEntry.entry ⟨some 86400, ⟨some 40, none, none⟩, none, none⟩, RawEntry.entry ⟨some 172800, ⟨some 40, none, none⟩, none, none⟩, RawEntry.entry ⟨some 259200, ⟨some 40, none, none⟩, none, none⟩] 0 = [0, 1] ++ [2, 3] := by decide
  have hthr : ((3 : ℕ) : ℚ) = tget DEFAULT_THRESHOLDS "heatwave_days" 3 := by decide
  have hall : ∀ d ∈ [0, 1] ++ [2, 3], isHot DEFAULT_THRESHOLDS (aggregate [RawEntry.entry ⟨some 0, ⟨some 40, none, none⟩, none, none⟩, RawEntry.entry ⟨some 86400, ⟨some 40, none, none⟩, none, none⟩, RawEntry.entry ⟨some 172800, ⟨some 40, none, none⟩, none, none⟩, RawEntry.entry ⟨some 259200, ⟨some 40, none, none⟩, none, none⟩]) d := by
    intro d hd
    fin_cases hd <;>
    · simp [isHot, summaryFor, aggregate, aggEntry, updateSummary,
        setDay, lookupDay, tsDay, initSummary, tget, DEFAULT_THRESHOLDS, le_max_iff]
      norm_num
  exact ⟨hp, rfl, hthr, hall,
    (heatwave_two_distinct_endings [RawEntry.entry ⟨some 0, ⟨some 40, none, none⟩, none, none⟩, RawEntry.entry ⟨some 86400, ⟨some 40, none, none⟩, none, none⟩, RawEntry.entry ⟨some 172800, ⟨some 40, none, none⟩, none, none⟩, RawEntry.entry ⟨some 259200, ⟨some 40, none, none⟩, none, none⟩] DEFAULT_THRESHOLDS 0 3 [0, 1] 2 3
      hp rfl hthr hall).1⟩

/-! ### The report invariant is preserved by every check -/

theorem frostCheck_pairOk (th : Thresholds) (d : ℕ) (s : DaySummary)
    (p : Risks × List Alert) (h : pairOk p) : pairOk (frostCheck th d s p) := by
  obtain ⟨⟨hc, ho⟩, hd⟩ := h
  obtain ⟨h1, h2, h3, h4, h5, h6⟩ := hc
  simp only [frostCheck]
  split
  · refine ⟨⟨⟨h1, h2, h3, fun _ => rfl, h5, h6⟩, ?_⟩, ?_⟩
    · intro a ha
      have := ho a ha
      simp only [detailsUnion, List.mem_append] at this ⊢
      itauto
    · intro a ha
      rcases List.mem_append.mp ha with ha | ha
      · have := hd a ha
        simp only [detailsUnion, List.mem_append] at this ⊢
        itauto
      · simp only [List.mem_singleton] at ha
        subst ha
        simp [detailsUnion, List.mem_append]
  · exact ⟨⟨⟨h1, h2, h3, h4, h5, h6⟩, ho⟩, hd⟩

theorem floodCheck_pairOk (th : Thresholds) (d : ℕ) (s : DaySummary)
    (p : Risks × List Alert) (h : pairOk p) : pairOk (floodCheck th d s p) := by
  obtain ⟨⟨hc, ho⟩, hd⟩ := h
  obtain ⟨h1, h2, h3, h4, h5, h6⟩ := hc
  simp only [floodCheck]
  split
  · refine ⟨⟨⟨h1, fun _ => rfl, h3, h4, h5, h6⟩, ?_⟩, ?_⟩
    · intro a ha
      have := ho a ha
      simp only [detailsUnion, List.mem_append] at this ⊢
      itauto
    · intro a ha
      rcases List.mem_append.mp ha with ha | ha
      · have := hd a ha
        simp only [detailsUnion, List.mem_append] at this ⊢
        itauto
      · simp only [List.mem_singleton] at ha
        subst ha
        simp [detailsUnion, List.mem_append]
  · split
    · refine ⟨⟨⟨h1, fun _ => rfl, h3, h4, h5, h6⟩, ?_⟩, ?_⟩
      · intro a ha
        have := ho a ha
        simp only [detailsUnion, List.mem_append] at this ⊢
        itauto
      · intro a ha
        rcases List.mem_append.mp ha with ha | ha
        · have := hd a ha
          simp only [detailsUnion, List.mem_append] at this ⊢
          itauto
        · simp only [List.mem_singleton] at ha
          subst ha
          simp [detailsUnion, List.mem_append]
    · exact ⟨⟨⟨h1, h2, h3, h4, h5, h6⟩, ho⟩, hd⟩

theorem windCheck_pairOk (th : Thresholds) (d : ℕ) (s : DaySummary)
    (p : Risks × List Alert) (h : pairOk p) : pairOk (windCheck th d s p) := by
  obtain ⟨⟨hc, ho⟩, hd⟩ := h
  obtain ⟨h1, h2, h3, h4, h5, h6⟩ := hc
  simp only [windCheck]
  split
  · refine ⟨⟨⟨h1, h2, h3, h4, fun _ => rfl, h6⟩, ?_⟩, ?_⟩
    · intro a ha
      have := ho a ha
      simp only [detailsUnion, List.mem_append] at this ⊢
      itauto
    · intro a ha
      rcases List.mem_append.mp ha with ha | ha
      · have := hd a ha
        simp only [detailsUnion, List.mem_append] at this ⊢
        itauto
      · simp only [List.mem_singleton] at ha
        subst ha
        simp [detailsUnion, List.mem_append]
  · exact ⟨⟨⟨h1, h2, h3, h4, h5, h6⟩, ho⟩, hd⟩

theorem humidityCheck_pairOk (th : Thresholds) (d : ℕ) (s : DaySummary)
    (p : Risks × List Alert) (h : pairOk p) : pairOk (humidityCheck th d s p) := by
  obtain ⟨⟨hc, ho⟩, hd⟩ := h
  obtain ⟨h1, h2, h3, h4, h5, h6⟩ := hc
  simp only [humidityCheck]
  split
  · refine ⟨⟨⟨h1, h2, h3, h4, h5, fun _ => rfl⟩, ?_⟩, ?_⟩
    · intro a ha
      have := ho a ha
      simp only [detailsUnion, List.mem_append] at this ⊢
      itauto
    · intro a ha
      rcases List.mem_append.mp ha with ha | ha
      · have := hd a ha
        simp only [detailsUnion, List.mem_append] at this ⊢
        itauto
      · simp only [List.mem_singleton] at ha
        subst ha
        simp [detailsUnion, List.mem_append]
  · exact ⟨⟨⟨h1, h2, h3, h4, h5, h6⟩, ho⟩, hd⟩

theorem droughtCheck_pairOk (th : Thresholds) (d n : ℕ)
    (p : Risks × List Alert) (h : pairOk p) : pairOk (droughtCheck th d n p) := by
  obtain ⟨⟨hc, ho⟩, hd⟩ := h
  obtain ⟨h1, h2, h3, h4, h5, h6⟩ := hc
  simp only [droughtCheck]
  split
  · refine ⟨⟨⟨fun _ => rfl, h2, h3, h4, h5, h6⟩, ?_⟩, ?_⟩
    · intro a ha
      have := ho a ha
      simp only [detailsUnion, List.mem_append] at this ⊢
      itauto
    · intro a ha
      rcases List.mem_append.mp ha with ha | ha
      · have := hd a ha
        simp only [detailsUnion, List.mem_append] at this ⊢
        itauto
      · simp only [List.mem_singleton] at ha
        subst ha
        simp [detailsUnion, List.mem_append]
  · exact ⟨⟨⟨h1, h2, h3, h4, h5, h6⟩, ho⟩, hd⟩

theorem heatwaveCheck_pairOk (th : Thresholds) (d n : ℕ)
    (p : Risks × List Alert) (h : pairOk p) : pairOk (heatwaveCheck th d n p) := by
  obtain ⟨⟨hc, ho⟩, hd⟩ := h
  obtain ⟨h1, h2, h3, h4, h5, h6⟩ := hc
  simp only [heatwaveCheck]
  split
  · split
    · exact ⟨⟨⟨h1, h2, h3, h4, h5, h6⟩, ho⟩, hd⟩
    · refine ⟨⟨⟨h1, h2, fun _ => rfl, h4, h5, h6⟩, ?_⟩, ?_⟩
      · intro a ha
        have := ho a ha
        simp only [detailsUnion, List.mem_append] at this ⊢
        itauto
      · intro a ha
        rcases List.mem_append.mp ha with ha | ha
        · have := hd a ha
          simp only [detailsUnion, List.mem_append] at this ⊢
          itauto
        · simp only [List.mem_singleton] at ha
          subst ha
          simp [detailsUnion, List.mem_append]
  · exact ⟨⟨⟨h1, h2, h3, h4, h5, h6⟩, ho⟩, hd⟩

theorem processDay_reportOk (th : Thresholds) (d : ℕ) (s : DaySummary)
    (dry hot : ℕ) (r : Risks) (h : reportOk r) :
    reportOk (processDay th d s dry hot r).1 := by
  have h0 : pairOk (r, ([] : List Alert)) := ⟨h, by intro a ha; simp at ha⟩
  have h1 := frostCheck_pairOk th d s _ h0
  have h2 := floodCheck_pairOk th d s _ h1
  have h3 := windCheck_pairOk th d s _ h2
  have h4 := humidityCheck_pairOk th d s _ h3
  have h5 := droughtCheck_pairOk th d
    (if s.total_rain ≤ tget th "drought_risk_mm" 2 then dry + 1 else 0) _ h4
  have h6 := heatwaveCheck_pairOk th d
    (if tget th "heatwave_temp_c" 38 ≤ s.max_temp then hot + 1 else 0) _ h5
  have hsplit : ∀ (x : Risks) (da : List Alert), reportOk x →
      (∀ a ∈ da, a ∈ detailsUnion x) →
      reportOk (if da.isEmpty then x
        else { x with overall_alerts := x.overall_alerts ++ da }) := by
    intro x da hx hda
    split
    · exact hx
    · refine ⟨hx.1, ?_⟩
      intro a ha
      rcases List.mem_append.mp ha with ha | ha
      · exact hx.2 a ha
      · exact hda a ha
  simp only [processDay]
  exact hsplit _ _ h6.1 h6.2

theorem foldDays_reportOk (th : Thresholds) (m : List (ℕ × DaySummary)) :
    ∀ (l : List ℕ) (dry hot : ℕ) (r : Risks), reportOk r →
      reportOk (foldDays th m l dry hot r).1 := by
  intro l
  induction l with
  | nil => intro dry hot r h; exact h
  | cons d rest ih =>
    intro dry hot r h
    simp only [foldDays]
    exact ih _ _ _ (processDay_reportOk th d _ dry hot r h)

/-! ### C10: flags match details, overall alerts come from the details -/

/-- C10: for every input, each of the six categories of the returned
report has its flag set whenever its details list is non-empty, and every
entry of the flat overall-alerts list occurs in some category's details
list. -/
theorem report_flag_details_invariant (fd : ForecastDoc) (th : Thresholds)
    (today : ℕ) :
    catsOk (assess_climate_risks_enhanced fd th today) ∧
    ∀ a ∈ (assess_climate_risks_enhanced fd th today).overall_alerts,
      a ∈ detailsUnion (assess_climate_risks_enhanced fd th today) := by
  have hinit : reportOk initRisks := by
    refine ⟨⟨?_, ?_, ?_, ?_, ?_, ?_⟩, ?_⟩ <;>
      simp [initRisks, initCat, detailsUnion]
  have hmain : reportOk (assess_climate_risks_enhanced fd th today) := by
    rcases fd with _ | _ | l
    · exact hinit
    · exact hinit
    · rcases l with _ | sl
      · exact hinit
      · rcases sl with _ | es
        · exact hinit
        · rcases es with _ | ⟨e, es'⟩
          · exact hinit
          · have heval := assessRisksFrom_eq_foldDays (e :: es') th today
            have heval2 : assess_climate_risks_enhanced
                (.dict (some (.list (e :: es')))) th today
                = assessRisksFrom (e :: es') th today := rfl
            rw [heval2, heval]
            exact foldDays_reportOk th _ _ 0 0 initRisks hinit
  exact ⟨hmain.1, hmain.2⟩

/-- Witness for C10 at the concrete document `None`. -/
theorem report_flag_details_invariant_wit :
    catsOk (assess_climate_risks_enhanced .nullDoc DEFAULT_THRESHOLDS 0) ∧
    (assess_climate_risks_enhanced .nullDoc DEFAULT_THRESHOLDS 0).overall_alerts
      = [] :=
  ⟨(report_flag_details_invariant .nullDoc DEFAULT_THRESHOLDS 0).1, rfl⟩

/-! ### Aggregation bounds: running max/min and the rain sum -/

theorem total_rain_aggEntry (m : List (ℕ × DaySummary)) (r : RawEntry) (d : ℕ) :
    (summaryFor (aggEntry m r) d).total_rain =
      (summaryFor m d).total_rain + contribRain d r := by
  rcases r with _ | e
  · simp [aggEntry, contribRain]
  · cases hdt : e.dt with
    | none => simp [aggEntry, hdt, contribRain]
    | some ts =>
      simp only [aggEntry, hdt, contribRain]
      by_cases hday : tsDay ts = d
      · subst hday
        simp [summaryFor, lookupDay_setDay_self, updateSummary]
      · have hne : d ≠ tsDay ts := fun hc => hday hc.symm
        simp [summaryFor, lookupDay_setDay_ne _ _ _ _ hne, hday]

theorem total_rain_aggregate (es : List RawEntry) (d : ℕ) :
    (summaryFor (aggregate es) d).total_rain = dayRainSum es d := by
  suffices hgen : ∀ (l : List RawEntry) (m : List (ℕ × DaySummary)),
      (summaryFor (l.foldl aggEntry m) d).total_rain =
        (summaryFor m d).total_rain + dayRainSum l d by
    have h0 := hgen es []
    simpa [summaryFor, lookupDay, initSummary, dayRainSum] using h0
  intro l
  induction l with
  | nil => intro m; simp [dayRainSum]
  | cons r rest ih =>
    intro m
    simp only [List.foldl_cons]
    rw [ih, total_rain_aggEntry]
    simp only [dayRainSum, List.map_cons, List.sum_cons]
    ring

theorem max_temp_aggEntry_le (m : List (ℕ × DaySummary)) (r : RawEntry) (d : ℕ) :
    (summaryFor m d).max_temp ≤ (summaryFor (aggEntry m r) d).max_temp := by
  rcases r with _ | e
  · simp [aggEntry]
  · cases hdt : e.dt with
    | none => simp [aggEntry, hdt]
    | some ts =>
      simp only [aggEntry, hdt]
      by_cases hday : tsDay ts = d
      · subst hday
        simp [summaryFor, lookupDay_setDay_self, updateSummary]
      · have hne : d ≠ tsDay ts := fun hc => hday hc.symm
        simp [summaryFor, lookupDay_setDay_ne _ _ _ _ hne]

theorem min_temp_aggEntry_le (m : List (ℕ × DaySummary)) (r : RawEntry) (d : ℕ) :
    (summaryFor (aggEntry m r) d).min_temp ≤ (summaryFor m d).min_temp := by
  rcases r with _ | e
  · simp [aggEntry]
  · cases hdt : e.dt with
    | none => simp [aggEntry, hdt]
    | some ts =>
      simp only [aggEntry, hdt]
      by_cases hday : tsDay ts = d
      · subst hday
        simp [summaryFor, lookupDay_setDay_self, updateSummary]
      · have hne : d ≠ tsDay ts := fun hc => hday hc.symm
        simp [summaryFor, lookupDay_setDay_ne _ _ _ _ hne]

theorem max_temp_foldl_le (l : List RawEntry) (m : List (ℕ × DaySummary)) (d : ℕ) :
    (summaryFor m d).max_temp ≤ (summaryFor (l.foldl aggEntry m) d).max_temp := by
  induction l generalizing m with
  | nil => exact le_refl _
  | cons r rest ih =>
    simp only [List.foldl_cons]
    exact le_trans (max_temp_aggEntry_le m r d) (ih (aggEntry m r))

theorem min_temp_foldl_le (l : List RawEntry) (m : List (ℕ × DaySummary)) (d : ℕ) :
    (summaryFor (l.foldl aggEntry m) d).min_temp ≤ (summaryFor m d).min_temp := by
  induction l generalizing m with
  | nil => exact le_refl _
  | cons r rest ih =>
    simp only [List.foldl_cons]
    exact le_trans (ih (aggEntry m r)) (min_temp_aggEntry_le m r d)

theorem max_temp_contrib (m : List (ℕ × DaySummary)) (e : FcEntry) (ts d : ℕ)
    (v : ℚ) (hdt : e.dt = some ts) (hday : tsDay ts = d)
    (hv : e.main.temp_max = some v) :
    v ≤ (summaryFor (aggEntry m (.entry e)) d).max_temp := by
  subst hday
  simp only [aggEntry, hdt]
  simp [summaryFor, lookupDay_setDay_self, updateSummary, hv, le_max_iff]

theorem min_temp_contrib (m : List (ℕ × DaySummary)) (e : FcEntry) (ts d : ℕ)
    (v : ℚ) (hdt : e.dt = some ts) (hday : tsDay ts = d)
    (hv : e.main.temp_min = some v) :
    (summaryFor (aggEntry m (.entry e)) d).min_temp ≤ v := by
  subst hday
  simp only [aggEntry, hdt]
  simp [summaryFor, lookupDay_setDay_self, updateSummary, hv, min_le_iff]

theorem contributesMax_le (es : List RawEntry) (d : ℕ) (v : ℚ)
    (h : contributesMax es d v) :
    v ≤ (summaryFor (aggregate es) d).max_temp := by
  suffices hgen : ∀ (l : List RawEntry) (m : List (ℕ × DaySummary)),
      (∃ e ts, RawEntry.entry e ∈ l ∧ e.dt = some ts ∧ tsDay ts = d ∧
        e.main.temp_max = some v) →
      v ≤ (summaryFor (l.foldl aggEntry m) d).max_temp by
    exact hgen es [] h
  intro l
  induction l with
  | nil =>
    rintro m ⟨e, ts, he, -⟩
    simp at he
  | cons r rest ih =>
    rintro m ⟨e, ts, he, h1, h2, h3⟩
    simp only [List.foldl_cons]
    rcases List.mem_cons.mp he with he | he
    · rw [← he]
      exact le_trans (max_temp_contrib m e ts d v h1 h2 h3) (max_temp_foldl_le rest _ d)
    · exact ih (aggEntry m r) ⟨e, ts, he, h1, h2, h3⟩

theorem contributesMin_le (es : List RawEntry) (d : ℕ) (v : ℚ)
    (h : contributesMin es d v) :
    (summaryFor (aggregate es) d).min_temp ≤ v := by
  suffices hgen : ∀ (l : List RawEntry) (m : List (ℕ × DaySummary)),
      (∃ e ts, RawEntry.entry e ∈ l ∧ e.dt = some ts ∧ tsDay ts = d ∧
        e.main.temp_min = some v) →
      (summaryFor (l.foldl aggEntry m) d).min_temp ≤ v by
    exact hgen es [] h
  intro l
  induction l with
  | nil =>
    rintro m ⟨e, ts, he, -⟩
    simp at he
  | cons r rest ih =>
    rintro m ⟨e, ts, he, h1, h2, h3⟩
    simp only [List.foldl_cons]
    rcases List.mem_cons.mp he with he | he
    · rw [← he]
      exact le_trans (min_temp_foldl_le rest _ d) (min_temp_contrib m e ts d v h1 h2 h3)
    · exact ih (aggEntry m r) ⟨e, ts, he, h1, h2, h3⟩

theorem dayRainSum_nonneg (es : List RawEntry) (d : ℕ)
    (h : ∀ e ts, RawEntry.entry e ∈ es → e.dt = some ts → tsDay ts = d →
      0 ≤ e.rain_3h.getD 0) : 0 ≤ dayRainSum es d := by
  apply List.sum_nonneg
  intro x hx
  obtain ⟨r, hr, rfl⟩ := List.mem_map.mp hx
  rcases r with _ | e
  · simp [contribRain]
  · cases hdt : e.dt with
    | none => simp [contribRain, hdt]
    | some ts =>
      simp only [contribRain, hdt]
      by_cases hday : tsDay ts = d
      · rw [if_pos hday]
        exact h e ts hr hdt hday
      · rw [if_neg hday]

/-! ### C9 (amended): extrema bound contributions; rain is the exact sum -/

/-- C9 as amended: for every daily summary in the aggregation's output,
`max_temp` is `≥` every contributing sample's `temp_max`, `min_temp` is `≤`
every contributing sample's `temp_min`, and `total_rain` is exactly the sum
of the per-sample interval rainfall contributions — hence non-negative
whenever every contributing sample's rainfall value is non-negative (the
unconditional non-negativity of the original claim fails: see the
counterexample with a negative rainfall sample). -/
theorem aggregate_summary_bounds (es : List RawEntry) (d : ℕ) (s : DaySummary)
    (h : lookupDay d (aggregate es) = some s) :
    (∀ v, contributesMax es d v → v ≤ s.max_temp) ∧
    (∀ v, contributesMin es d v → s.min_temp ≤ v) ∧
    s.total_rain = dayRainSum es d ∧
    ((∀ e ts, RawEntry.entry e ∈ es → e.dt = some ts → tsDay ts = d →
        0 ≤ e.rain_3h.getD 0) → 0 ≤ s.total_rain) := by
  have hs : summaryFor (aggregate es) d = s := by simp [summaryFor, h]
  refine ⟨?_, ?_, ?_, ?_⟩
  · intro v hv
    rw [← hs]
    exact contributesMax_le es d v hv
  · intro v hv
    rw [← hs]
    exact contributesMin_le es d v hv
  · rw [← hs]
    exact total_rain_aggregate es d
  · intro hnn
    rw [← hs, total_rain_aggregate]
    exact dayRainSum_nonneg es d hnn

/-- Counterexample for C9 as stated: one sample reporting `-1` of interval
rain yields a daily summary whose `total_rain` is negative. -/
theorem aggregate_total_rain_negative_cex :
    (summaryFor (aggregate
        [RawEntry.entry ⟨some 0, ⟨none, none, none⟩, none, some (-1)⟩]) 0).total_rain
      = -1 ∧ ((-1 : ℚ) < 0) := by
  constructor
  · simp [summaryFor, aggregate, aggEntry, updateSummary, setDay, lookupDay,
      tsDay, initSummary]
  · norm_num

/-- Witness for the amended C9 at a single concrete sample. -/
theorem aggregate_summary_bounds_wit :
    (lookupDay 0 (aggregate [RawEntry.entry ⟨some 0, ⟨some 30, some 10, none⟩, none, some 5⟩])
        = some ⟨30, 10, 5, 0, [none], [5], 1⟩) ∧
    ((30 : ℚ) ≤ (⟨30, 10, 5, 0, [none], [5], 1⟩ : DaySummary).max_temp ∧
     (⟨30, 10, 5, 0, [none], [5], 1⟩ : DaySummary).min_temp ≤ (10 : ℚ) ∧
     (⟨30, 10, 5, 0, [none], [5], 1⟩ : DaySummary).total_rain =
       dayRainSum [RawEntry.entry ⟨some 0, ⟨some 30, some 10, none⟩, none, some 5⟩] 0 ∧
     0 ≤ (⟨30, 10, 5, 0, [none], [5], 1⟩ : DaySummary).total_rain) := by
  have hl : lookupDay 0
      (aggregate [RawEntry.entry ⟨some 0, ⟨some 30, some 10, none⟩, none, some 5⟩])
      = some ⟨30, 10, 5, 0, [none], [5], 1⟩ := by
    simp [aggregate, aggEntry, updateSummary, setDay, lookupDay, tsDay, initSummary,
      max_eq_right (show (-100 : ℚ) ≤ 30 by norm_num),
      min_eq_right (show (10 : ℚ) ≤ 200 by norm_num)]
  have hb := aggregate_summary_bounds
    [RawEntry.entry ⟨some 0, ⟨some 30, some 10, none⟩, none, some 5⟩] 0
    ⟨30, 10, 5, 0, [none], [5], 1⟩ hl
  refine ⟨hl,
    hb.1 30 ⟨⟨some 0, ⟨some 30, some 10, none⟩, none, some 5⟩, 0, by simp, rfl, rfl, rfl⟩,
    hb.2.1 10 ⟨⟨some 0, ⟨some 30, some 10, none⟩, none, some 5⟩, 0, by simp, rfl, rfl, rfl⟩,
    hb.2.2.1, hb.2.2.2 ?_⟩
  intro e ts he hdt hday
  simp only [List.mem_singleton, RawEntry.entry.injEq] at he
  subst he
  norm_num

/-! ### C1: malformed input degrades to the all-false report -/

/-- C1: for every forecast document that is null, not a record, missing its
sample list, or whose sample list is empty or not a list, `evaluate` returns
the report in which every one of the six risk categories has `warning = false`
and an empty details list, and the flat overall-alerts list is empty (the
function is total, so no error reaches the caller). -/
theorem evaluate_malformed_returns_all_false (fd : ForecastDoc) (th : Thresholds)
    (today : ℕ)
    (h : fd = .nullDoc ∨ fd = .notDict ∨ fd = .dict none ∨
         fd = .dict (some .notList) ∨ fd = .dict (some (.list []))) :
    assess_climate_risks_enhanced fd th today = initRisks ∧
    (assess_climate_risks_enhanced fd th today).drought.warning = false ∧
    (assess_climate_risks_enhanced fd th today).drought.details = [] ∧
    (assess_climate_risks_enhanced fd th today).flood_heavy_rain.warning = false ∧
    (assess_climate_risks_enhanced fd th today).flood_heavy_rain.details = [] ∧
    (assess_climate_risks_enhanced fd th today).heatwave.warning = false ∧
    (assess_climate_risks_enhanced fd th today).heatwave.details = [] ∧
    (assess_climate_risks_enhanced fd th today).frost.warning = false ∧
    (assess_climate_risks_enhanced fd th today).frost.details = [] ∧
    (assess_climate_risks_enhanced fd th today).high_wind.warning = false ∧
    (assess_climate_risks_enhanced fd th today).high_wind.details = [] ∧
    (assess_climate_risks_enhanced fd th today).prolonged_high_humidity.warning = false ∧
    (assess_climate_risks_enhanced fd th today).prolonged_high_humidity.details = [] ∧
    (assess_climate_risks_enhanced fd th today).overall_alerts = [] := by
  rcases h with h | h | h | h | h <;> subst h <;>
    exact ⟨rfl, rfl, rfl, rfl, rfl, rfl, rfl, rfl, rfl, rfl, rfl, rfl, rfl, rfl⟩

/-- Witness for C1 at the concrete document `None`. -/
theorem evaluate_malformed_returns_all_false_wit :
    (ForecastDoc.nullDoc = ForecastDoc.nullDoc ∨
     ForecastDoc.nullDoc = ForecastDoc.notDict ∨
     ForecastDoc.nullDoc = ForecastDoc.dict none ∨
     ForecastDoc.nullDoc = ForecastDoc.dict (some .notList) ∨
     ForecastDoc.nullDoc = ForecastDoc.dict (some (.list []))) ∧
    assess_climate_risks_enhanced .nullDoc DEFAULT_THRESHOLDS 0 = initRisks :=
  ⟨Or.inl rfl,
   (evaluate_malformed_returns_all_false .nullDoc DEFAULT_THRESHOLDS 0 (Or.inl rfl)).1⟩

/-! ### C6: the adjustment rules compose sequentially -/

/-- C6: with stage `"Flowering"` and crop `"Rice"`, `adjust` equals rule 1
(stage sensitivity) followed by rule 2 (Rice drought relaxation), rule 2
reading the value already adjusted by rule 1: from the defaults it yields
`heatwave_temp_c = max(32, 38 − 3) = 35` and
`drought_risk_days = min(10, max(3, 7 − 2) + 3) = 8`, whereas rule 2 applied
independently of rule 1 would give `min(10, 7 + 3) = 10 ≠ 8`. -/
theorem adjust_flowering_rice_sequential :
    get_adjusted_thresholds DEFAULT_THRESHOLDS "Rice" "Flowering" "heatwave_temp_c"
        = some 35 ∧
    get_adjusted_thresholds DEFAULT_THRESHOLDS "Rice" "Flowering" "drought_risk_days"
        = some 8 ∧
    max 32 ((38 : ℚ) - 3) = 35 ∧
    min 10 (max 3 ((7 : ℚ) - 2) + 3) = 8 ∧
    (∀ k, get_adjusted_thresholds DEFAULT_THRESHOLDS "Rice" "Flowering" k =
        riceDroughtRule (stageSensitivityRule DEFAULT_THRESHOLDS "Flowering")
          "Rice" "Flowering" k) ∧
    riceDroughtRule DEFAULT_THRESHOLDS "Rice" "Flowering" "drought_risk_days"
        = some 10 ∧
    (10 : ℚ) ≠ 8 := by
  refine ⟨?_, ?_, by norm_num, by norm_num, ?_, ?_, by norm_num⟩
  · simp [get_adjusted_thresholds, maizeWindRule, vegFrostRule, riceDroughtRule,
      stageSensitivityRule, tset, tget, DEFAULT_THRESHOLDS]
    norm_num
  · simp [get_adjusted_thresholds, maizeWindRule, vegFrostRule, riceDroughtRule,
      stageSensitivityRule, tset, tget, DEFAULT_THRESHOLDS]
    norm_num
  · intro k
    simp only [get_adjusted_thresholds, maizeWindRule, vegFrostRule]
    rw [if_neg (by decide), if_neg (by decide)]
  · simp [riceDroughtRule, tset, tget, DEFAULT_THRESHOLDS]
    norm_num

/-! ### C8: the adjuster touches only its four keys -/

/-- C8: for every base threshold mapping, crop and stage, every key other
than `heatwave_temp_c`, `drought_risk_days`, `frost_risk_temp_c` and
`high_wind_speed_ms` is mapped by `adjust` to the same value as in the base
mapping (the adjustments act on a copy, leaving the base unchanged). -/
theorem adjust_preserves_other_keys (base : Thresholds) (crop stage k : String)
    (h : k ≠ "heatwave_temp_c" ∧ k ≠ "drought_risk_days" ∧
         k ≠ "frost_risk_temp_c" ∧ k ≠ "high_wind_speed_ms") :
    get_adjusted_thresholds base crop stage k = base k := by
  obtain ⟨h1, h2, h3, h4⟩ := h
  simp only [get_adjusted_thresholds, maizeWindRule, vegFrostRule, riceDroughtRule,
    stageSensitivityRule]
  split <;> split <;> split <;> split <;> simp [tset, h1, h2, h3, h4]

/-- Witness for C8 at a concrete untouched key. -/
theorem adjust_preserves_other_keys_wit :
    ("flood_risk_mm_per_day" ≠ "heatwave_temp_c" ∧
     "flood_risk_mm_per_day" ≠ "drought_risk_days" ∧
     "flood_risk_mm_per_day" ≠ "frost_risk_temp_c" ∧
     "flood_risk_mm_per_day" ≠ "high_wind_speed_ms") ∧
    get_adjusted_thresholds DEFAULT_THRESHOLDS "Rice" "Flowering" "flood_risk_mm_per_day"
      = DEFAULT_THRESHOLDS "flood_risk_mm_per_day" :=
  ⟨by decide,
   adjust_preserves_other_keys DEFAULT_THRESHOLDS "Rice" "Flowering"
     "flood_risk_mm_per_day" (by decide)⟩

end GSC
